import Mathlib

/-!
# Verification of the runway-surfaces geometry engine

A shallow embedding of the `runway_surfaces` Python package
(`util.py`, `runway.py`, `surfaces.py`) over the real numbers, together
with theorems settling the frozen claims about the package.

Modelling conventions:
* `np.float64` values are modelled as real numbers (`ℝ`); 2D points as
  `ℝ × ℝ` and 3D points as `ℝ × ℝ × ℝ`.
* Python functions that can raise (`AttributeError` on a missing
  attribute, `KeyError` on a missing dict key, `IndexError` on list
  indexing) are embedded in `Except PyErr`.
* Boolean tests on floats become propositions; branching uses classical
  decidability.
* Division by zero (which produces `inf`/`nan` under IEEE in the source)
  is modelled by Lean's total division, whose value at zero denominators
  is `0`.  No claim below depends on such a degenerate evaluation.
-/

open scoped Classical

noncomputable section

/-- A 2D coordinate point, as the Python `tuple[np.float64, np.float64]`. -/
abbrev Point2 : Type := ℝ × ℝ

/-- A 3D coordinate point. -/
abbrev Point3 : Type := ℝ × ℝ × ℝ

/-- The Python exceptions the embedded code can raise. -/
inductive PyErr : Type where
  | attributeError
  | keyError
  | indexError
  deriving DecidableEq, Repr

/-- Reading a key from a Python dict whose value may be absent:
absence raises `KeyError`. -/
def getKey (o : Option ℝ) : Except PyErr ℝ :=
  match o with
  | none => .error .keyError
  | some x => .ok x

/-- Indexing into an optional pair as Python `lst[0]`/`lst[1]` on a
possibly-empty list: absence raises `IndexError`. -/
def getPair {α : Type} (o : Option α) : Except PyErr α :=
  match o with
  | none => .error .indexError
  | some x => .ok x

/-- `np.sign`, valued in `ℤ` (the source only compares it to integers). -/
def sign (x : ℝ) : ℤ :=
  if x > 0 then 1 else if x < 0 then -1 else 0

/-! ## util.py -/

/-- `util.calc_distance`: Euclidean distance between two 2D points. -/
def calc_distance (p1 p2 : Point2) : ℝ :=
  Real.sqrt ((p1.1 - p2.1) ^ 2 + (p1.2 - p2.2) ^ 2)

/-- `util.extend_point_in_one_direction`: extends `p2` away from `p1` by
`amount`.  Returns `none` (the source's empty tuple) for a zero-length
vector. -/
def extend_point_in_one_direction (p1 p2 : Point2) (amount : ℝ) :
    Option Point2 :=
  let v : Point2 := (p2.1 - p1.1, p2.2 - p1.2)
  let length := Real.sqrt (v.1 ^ 2 + v.2 ^ 2)
  if length = 0 then none
  else
    let a := amount / length + 1
    some (a * v.1 + p1.1, a * v.2 + p1.2)

/-- `util.extend_points_in_both_directions`: extends the segment `p1p2`
by `amount` beyond each endpoint; the returned pair is
`(extension beyond p1, extension beyond p2)`, the order of the source's
returned list. -/
def extend_points_in_both_directions (p1 p2 : Point2) (amount : ℝ) :
    Option (Point2 × Point2) :=
  match extend_point_in_one_direction p2 p1 amount,
      extend_point_in_one_direction p1 p2 amount with
  | some e1, some e2 => some (e1, e2)
  | _, _ => none

/-- `util.circle_in_circle`: whether either circle is contained in the
other. -/
def circle_in_circle (c1 : Point2) (r1 : ℝ) (c2 : Point2) (r2 : ℝ) : Prop :=
  let d := calc_distance c1 c2
  r1 ≥ d + r2 ∨ r2 ≥ d + r1

/-- `util.compute_centerpoint`: the average of a list of points (the
empty-list guard lives in the caller `sort_directional`). -/
def compute_centerpoint (points : List Point2) : Point2 :=
  ((points.map Prod.fst).sum / points.length,
   (points.map Prod.snd).sum / points.length)

/-- `util.sort_directional`'s comparison function `compare_points`
(closing over the centerpoint `center`). -/
def compare_points (center a b : Point2) : ℤ :=
  if a.1 - center.1 ≥ 0 ∧ b.1 - center.1 < 0 then -1
  else if a.1 - center.1 < 0 ∧ b.1 - center.1 ≥ 0 then 1
  else if a.1 - center.1 = 0 ∧ b.1 - center.1 = 0 then
    (if a.2 - center.2 ≥ 0 ∨ b.2 - center.2 ≥ 0 then sign (b.2 - a.2)
     else sign (a.2 - b.2))
  else
    let det := (a.1 - center.1) * (b.2 - center.2) -
      (b.1 - center.1) * (a.2 - center.2)
    if det ≠ 0 then sign det
    else sign (calc_distance b center - calc_distance a center)

/-- Stable insertion of `x` into a list sorted by the relation `rel`
(`rel x y` meaning `x` may precede `y`). -/
def insertByRel (rel : Point2 → Point2 → Prop) (x : Point2) :
    List Point2 → List Point2
  | [] => [x]
  | y :: ys => if rel x y then x :: y :: ys else y :: insertByRel rel x ys

/-- Stable insertion sort by `rel`. -/
def sortByRel (rel : Point2 → Point2 → Prop) : List Point2 → List Point2
  | [] => []
  | x :: xs => insertByRel rel x (sortByRel rel xs)

/-- `util.sort_directional` with `ccw=True`: Python's stable sort by
`compare_points` with `reverse=True`, i.e. descending order under the
comparator (`a` may precede `b` iff `compare_points center a b ≥ 0`). -/
def sort_directional (points : List Point2) : List Point2 :=
  if points = [] then []
  else
    let center := compute_centerpoint points
    sortByRel (fun a b => compare_points center a b ≥ 0) points

/-- `util.lis_4p` computes (via sympy, in exact arithmetic) the
intersections of the infinite line through `a`, `b` with the closed
segment `c`–`d`; the callers only test the result for non-emptiness,
which this proposition captures. -/
def lis_4p_nonempty (a b c d : Point2) : Prop :=
  ∃ p : Point2,
    (b.1 - a.1) * (p.2 - a.2) - (p.1 - a.1) * (b.2 - a.2) = 0 ∧
    ∃ t : ℝ, 0 ≤ t ∧ t ≤ 1 ∧
      p = (c.1 + t * (d.1 - c.1), c.2 + t * (d.2 - c.2))

/-- `util.line_intersects_circle`: intersections of the standard-form
line `ax + by + c = 0` with the circle centred at `p` of radius `r`. -/
def line_intersects_circle (a b c : ℝ) (p : Point2) (r : ℝ) :
    List Point2 :=
  if a = 0 ∧ b = 0 then []
  else if b = 0 then
    let x := -c / a
    if p.1 - r ≤ x ∧ x ≤ p.1 + r then
      let temp := Real.sqrt (r ^ 2 - (x - p.1) ^ 2)
      [(x, p.2 + temp), (x, p.2 - temp)]
    else []
  else if a = 0 then
    let y := -c / b
    if p.2 - r ≤ y ∧ y ≤ p.2 + r then
      let temp := Real.sqrt (r ^ 2 - (y - p.2) ^ 2)
      [(p.1 + temp, y), (p.1 - temp, y)]
    else []
  else
    let alpha := a ^ 2 + b ^ 2
    let beta := a * c + a * b * p.2 - p.1 * b ^ 2
    let gamma := b ^ 2 * (p.1 ^ 2 + p.2 ^ 2 - r ^ 2) + 2 * c * b * p.2 +
      c ^ 2
    let disc := beta ^ 2 - alpha * gamma
    if disc < 0 then []
    else if disc = 0 then
      [(-beta / alpha, (-alpha * c + a * beta) / (alpha * b))]
    else
      let temp := Real.sqrt disc
      [((-beta + temp) / alpha, (-alpha * c - a * (-beta + temp)) /
          (alpha * b)),
       ((-beta - temp) / alpha, (-alpha * c - a * (-beta - temp)) /
          (alpha * b))]

/-- `util.create_right_triangle`: the two candidate third vertices `C`
with a right angle at `b` and leg length `w`; `none` (the source's empty
list) when `a = b`. -/
def create_right_triangle (a b : Point2) (w : ℝ) :
    Option (Point2 × Point2) :=
  let dx := b.1 - a.1
  let dy := b.2 - a.2
  let l := calc_distance a b
  if l = 0 then none
  else
    some ((b.1 - w * dy / l, b.2 + w * dx / l),
          (b.1 + w * dy / l, b.2 - w * dx / l))

/-- `util.calc_dist_for_height`. -/
def calc_dist_for_height (slope height : ℝ) : ℝ :=
  if slope = 0 ∨ height = 0 then 0
  else height / slope * Real.sqrt 2

/-- `util.get_polygon_direction`: sign of the doubled signed area sum. -/
def get_polygon_direction (vertices : List Point2) : ℤ :=
  sign (((List.range vertices.length).map (fun i =>
    let v1 := vertices.getD i (0, 0)
    let v2 := vertices.getD ((i + 1) % vertices.length) (0, 0)
    (v2.1 - v1.1) * (v2.2 + v1.2))).sum)

/-- `util.get_side_of_line`: which side of the directed line `a → b` the
point `c` lies on (`1` left, `-1` right, `0` collinear). -/
def get_side_of_line (a b c : Point2) : ℤ :=
  sign ((b.1 - a.1) * (c.2 - a.2) - (c.1 - a.1) * (b.2 - a.2))

/-- `util.is_in_polygon` with the `force_ccw`/`force_cw` flags. -/
def is_in_polygon (point : Point2) (vertices : List Point2)
    (force_ccw : Bool := false) (force_cw : Bool := false) : Prop :=
  if vertices.length < 3 then False
  else
    let direction : ℤ :=
      if force_ccw then -1
      else if force_cw then 1
      else get_polygon_direction vertices
    if direction = 0 then
      point.2 = ((vertices.getD 1 (0, 0)).1 - (vertices.getD 0 (0, 0)).1) /
          ((vertices.getD 1 (0, 0)).2 - (vertices.getD 0 (0, 0)).2) *
          (point.1 - (vertices.getD 0 (0, 0)).1) + (vertices.getD 0 (0, 0)).2
    else
      ∀ i < vertices.length,
        let s := get_side_of_line (vertices.getD i (0, 0))
          (vertices.getD ((i + 1) % vertices.length) (0, 0)) point
        if direction = 1 then s ≤ -1 else s ≥ 1

/-- `util.is_in_circle`. -/
def is_in_circle (point c : Point2) (r : ℝ) : Prop :=
  calc_distance point c ≤ r

/-- `util.get_cone`: the upper cone surface through `c` reaching radius
`r` at height `h` (a constant function when `h` equals the apex
height). -/
def get_cone (c : Point3) (r h : ℝ) : ℝ → ℝ → ℝ :=
  if h = c.2.2 then fun _ _ => h
  else fun x y =>
    Real.sqrt ((x - c.1) ^ 2 + (y - c.2.1) ^ 2) / (r / (h - c.2.2)) + c.2.2

/-- `util.distance_to_line`: distance from `point` to the line through
`a` and `b`.  (The source's `a == 0 and b == 0` guard compares tuples
with an integer and is always false, so it is omitted.) -/
def distance_to_line (point a b : Point2) : ℝ :=
  let dx := b.1 - a.1
  let dy := b.2 - a.2
  if dx = 0 then |point.1 - a.1|
  else if dy = 0 then |point.2 - a.2|
  else
    let m := dx / dy
    let i : ℝ := -1
    let j := 1 / m
    let k := -(a.2 / m + a.1)
    |i * point.1 + j * point.2 + k| / Real.sqrt (i ^ 2 + j ^ 2)

/-- `util.cross`: the source's (sign-skewed) "cross product" — its
middle component is the determinant `v1.x * v2.z - v1.z * v2.x`, which
is the negation of the middle component of the true cross product. -/
def cross (v1 v2 : Point3) : Point3 :=
  (v1.2.1 * v2.2.2 - v1.2.2 * v2.2.1,
   v1.1 * v2.2.2 - v1.2.2 * v2.1,
   v1.1 * v2.2.1 - v1.2.1 * v2.1)

/-- `util.get_plane`: the function `z = f(x, y)` the source derives from
`cross` of the two edge vectors at `a`. -/
def get_plane (a b c : Point3) : ℝ → ℝ → ℝ :=
  let v := cross (b.1 - a.1, b.2.1 - a.2.1, b.2.2 - a.2.2)
    (c.1 - a.1, c.2.1 - a.2.1, c.2.2 - a.2.2)
  fun x y => a.2.2 - (v.1 * (x - a.1) + v.2.1 * (y - a.2.1)) / v.2.2

/-- `util.t3d`. -/
def t3d (p : Point2) (z : ℝ) : Point3 := (p.1, p.2, z)

/-- `util.t2d`. -/
def t2d (p : Point3) : Point2 := (p.1, p.2.1)

/-- `util.is_within_segment`: whether the normalized projection scalar
of `p - a` on `b - a` lies in `[0, 1]`.  (At `p = a` the source divides
`0` by `0`, producing `nan` and hence `False`; Lean's total division
gives `0/0 = 0` there, a corner no theorem below exercises.) -/
def is_within_segment (p a b : Point2) : Prop :=
  let t1 : Point2 := (b.1 - a.1, b.2 - a.2)
  let t2 : Point2 := (p.1 - a.1, p.2 - a.2)
  let c := (t1.1 * t2.1 + t1.2 * t2.2) /
    (Real.sqrt (t1.1 ^ 2 + t1.2 ^ 2) * Real.sqrt (t2.1 ^ 2 + t2.2 ^ 2))
  0 ≤ c ∧ c ≤ 1

/-- `util.proj`: projection of the vector `a` onto the vector `b`. -/
def proj (a b : Point2) : Point2 :=
  let s := (a.1 * b.1 + a.2 * b.2) / Real.sqrt (b.1 ^ 2 + b.2 ^ 2) ^ 2
  (s * b.1, s * b.2)

/-- The square-root term `sqrt(-(r^2) * ((sin theta)^2 - 1))` shared by
all branches of `cet2cr`. -/
def cetQ (theta r : ℝ) : ℝ :=
  Real.sqrt (-(r ^ 2) * (Real.sin theta ^ 2 - 1))

/-- `util.cet2cr`: the tangency points of the common external tangent on
the right side of the directed center line `c1 → c2`, reproducing the
source's quadrant case split verbatim.  Empty for coincident centers or
contained circles. -/
def cet2cr (c1 : Point2) (r1 : ℝ) (c2 : Point2) (r2 : ℝ) : List Point2 :=
  if c1 = c2 then []
  else if circle_in_circle c1 r1 c2 r2 then []
  else
    let a := c2.2 - c1.2
    let b := c1.1 - c2.1
    let c := r2 - r1
    let m := Real.sqrt (a ^ 2 + b ^ 2)
    let theta := -Real.arctan (a / b) - Real.arcsin (c / m)
    let f : ℝ := if r1 > r2 then -1 else 1
    let s := Real.sin theta
    if c1.2 ≥ c2.2 then
      if r1 < r2 then
        if c1.1 ≥ c2.1 then
          [(c1.1 - r1 * s, c1.2 + cetQ theta r1),
           (c2.1 - r2 * s, c2.2 + cetQ theta r2)]
        else if c1.1 ≥ c2.1 - r2 + r1 then
          [(c1.1 + r1 * s, c1.2 + cetQ theta r1),
           (c2.1 + r2 * s, c2.2 + cetQ theta r2)]
        else
          [(c1.1 + r1 * s, c1.2 - cetQ theta r1),
           (c2.1 + r2 * s, c2.2 - cetQ theta r2)]
      else
        if c1.1 < c2.1 then
          [(c1.1 + r1 * s, c1.2 - cetQ theta r1),
           (c2.1 + r2 * s, c2.2 - cetQ theta r2)]
        else if c1.1 ≤ c2.1 - r2 + r1 then
          [(c1.1 - r1 * s, c1.2 - cetQ theta r1),
           (c2.1 - r2 * s, c2.2 - cetQ theta r2)]
        else
          [(c1.1 - r1 * s, c1.2 + cetQ theta r1),
           (c2.1 - r2 * s, c2.2 + cetQ theta r2)]
    else
      if r1 < r2 then
        if c1.1 < c2.1 then
          [(c1.1 + r1 * s, c1.2 - cetQ theta r1),
           (c2.1 + r2 * s, c2.2 - cetQ theta r2)]
        else if c1.1 ≤ c2.1 + r2 - r1 then
          [(c1.1 - f * r1 * s, c1.2 - cetQ theta r1),
           (c2.1 - f * r2 * s, c2.2 - f * cetQ theta r2)]
        else
          [(c1.1 - r1 * s, c1.2 + cetQ theta r1),
           (c2.1 - r2 * s, c2.2 + cetQ theta r2)]
      else
        if c1.1 ≥ c2.1 then
          [(c1.1 - r1 * s, c1.2 + cetQ theta r1),
           (c2.1 - r2 * s, c2.2 + cetQ theta r2)]
        else if c1.1 ≥ c2.1 + r2 - r1 then
          [(c1.1 + r1 * s, c1.2 + cetQ theta r1),
           (c2.1 + r2 * s, c2.2 + cetQ theta r2)]
        else
          [(c1.1 + r1 * s, c1.2 - cetQ theta r1),
           (c2.1 + r2 * s, c2.2 - cetQ theta r2)]

/-! ## runway.py -/

/-- `runway.RunwayTypes`. -/
inductive RunwayTypes : Type where
  | utility
  | visual
  | non_precision_instrument
  | precision_instrument
  deriving DecidableEq, Repr

/-- `runway.ApproachTypes`. -/
inductive ApproachTypes : Type where
  | visual
  | non_precision_instrument
  | precision_instrument
  deriving DecidableEq, Repr

/-- `runway.RunwayEnd`, exactly the attributes its constructor sets: a
coordinate point and an approach type (in particular, no name). -/
structure RunwayEnd : Type where
  point : Point2
  approach_type : ApproachTypes

/-- `runway.Runway`, exactly the attributes its constructor sets (in
particular, no name).  `visiblity_minimums` keeps the source's spelling
of the attribute. -/
structure Runway : Type where
  runway_type : RunwayTypes
  end1 : RunwayEnd
  end2 : RunwayEnd
  special_surface : Bool := false
  visiblity_minimums : ℝ := 0

/-- `Runway.calc_psurface_width`. -/
def Runway.calc_psurface_width (rw : Runway) : ℝ :=
  let visual_only := rw.end1.approach_type = ApproachTypes.visual ∧
    rw.end2.approach_type = ApproachTypes.visual
  let has_npia :=
    rw.end1.approach_type = ApproachTypes.non_precision_instrument ∨
    rw.end2.approach_type = ApproachTypes.non_precision_instrument
  if rw.runway_type = RunwayTypes.utility then
    if visual_only then 250 else 500
  else if rw.runway_type = RunwayTypes.visual then
    if visual_only then 500 else 0
  else if rw.runway_type = RunwayTypes.non_precision_instrument then
    if has_npia then
      (if rw.visiblity_minimums ≥ 0.75 then 1000 else 0)
    else if rw.visiblity_minimums > 0.75 then 500 else 0
  else if rw.runway_type = RunwayTypes.precision_instrument then 1000
  else 0

/-- `Runway.calc_hsurface_radius`. -/
def Runway.calc_hsurface_radius (rw : Runway) : ℝ :=
  if rw.runway_type = RunwayTypes.utility ∨
      rw.runway_type = RunwayTypes.visual then 5000
  else 10000

/-- The per-end dimension dictionary built by
`Runway.calc_approach_dimensions`; each `Option` field is a dict key
that may be absent. -/
structure ApproachDim : Type where
  typ : ApproachTypes
  width : Option ℝ := none
  length : Option ℝ := none
  slope : Option ℝ := none
  primary_length : Option ℝ := none
  secondary_length : Option ℝ := none
  primary_slope : Option ℝ := none
  secondary_slope : Option ℝ := none

/-- `Runway.calc_approach_dimensions`, reproducing the source exactly:
the `end1` chain runs first (its precision branch assigns the single key
`length = 50000` to end1 — no primary/secondary split — and also writes
`width = 16000` into *end2's* dict), then the `end2` chain runs (its
precision branch assigns `primary_length`/`secondary_length`). -/
def Runway.calc_approach_dimensions (rw : Runway) :
    ApproachDim × ApproachDim :=
  let d1 : ApproachDim := { typ := rw.end1.approach_type }
  let d2 : ApproachDim := { typ := rw.end2.approach_type }
  -- end1 chain
  let step1 : ApproachDim × ApproachDim :=
    if rw.end1.approach_type = ApproachTypes.visual then
      ({ d1 with
          width := some (if rw.runway_type = RunwayTypes.utility
            then 1250 else 1500)
          length := some 5000
          slope := some 0.05 }, d2)
    else if rw.end1.approach_type = ApproachTypes.non_precision_instrument
        then
      (if rw.runway_type = RunwayTypes.utility then
        ({ d1 with
            width := some 2000
            length := some 5000
            slope := some 0.05 }, d2)
      else
        ({ d1 with
            length := some 10000
            slope := some (1 / 34)
            width :=
              if rw.visiblity_minimums > 0.75 then some 3500
              else if rw.visiblity_minimums = 0.75 then some 4000
              else d1.width }, d2))
    else if rw.end1.approach_type = ApproachTypes.precision_instrument then
      ({ d1 with
          width := some 16000
          length := some 50000
          primary_slope := some 0.02
          secondary_slope := some 0.025 },
       { d2 with width := some 16000 })
    else (d1, d2)
  -- end2 chain
  let d1 := step1.1
  let d2 := step1.2
  if rw.end2.approach_type = ApproachTypes.visual then
    (d1, { d2 with
        width := some (if rw.runway_type = RunwayTypes.utility
          then 1250 else 1500)
        length := some 5000
        slope := some 0.05 })
  else if rw.end2.approach_type = ApproachTypes.non_precision_instrument
      then
    (if rw.runway_type = RunwayTypes.utility then
      (d1, { d2 with
          width := some 2000
          length := some 5000
          slope := some 0.05 })
    else
      (d1, { d2 with
          length := some 10000
          slope := some (1 / 34)
          width :=
            if rw.visiblity_minimums > 0.75 then some 3500
            else if rw.visiblity_minimums = 0.75 then some 4000
            else d2.width }))
  else if rw.end2.approach_type = ApproachTypes.precision_instrument then
    (d1, { d2 with
        width := some 16000
        primary_length := some 10000
        secondary_length := some 40000
        primary_slope := some 0.02
        secondary_slope := some 0.025 })
  else (d1, d2)

/-! ## surfaces.py: data types -/

/-- `surfaces.Edge` and its subclass `surfaces.Arc`.  An `edge` carries
the optional `center` its constructor takes; only values constructed as
`Arc` (which carry a center and radius but no endpoints) answer `true`
to the source's `type(edge) is Arc` test. -/
inductive HEdge : Type where
  | edge (p1 p2 : Point2) (center : Option Point2)
  | arc (center : Point2) (radius : ℝ)

/-- The primary-surface vertex dictionary of one runway:
`(side1, side2)` with `side1` mapped from `end1` and `side2` from
`end2`, each a pair of offset points as returned by
`create_right_triangle`. -/
abbrev PSurf : Type := (Point2 × Point2) × (Point2 × Point2)

/-- The approach-surface vertex dictionary of one runway:
the 4-vertex lists for `end1` and `end2`. -/
abbrev ASurf : Type := List Point2 × List Point2

/-! ## surfaces.get_horizontal_surface_edges -/

/-- Dict insert-or-update for `psurface_vertices` (Python dicts keep the
insertion position of an existing key and overwrite its value). -/
def upsertRadius (l : List (Point2 × ℝ)) (k : Point2) (r : ℝ) :
    List (Point2 × ℝ) :=
  match l with
  | [] => [(k, r)]
  | kv :: rest =>
      if kv.1 = k then (k, r) :: rest else kv :: upsertRadius rest k r

/-- Dict lookup for `psurface_vertices` (all looked-up keys are present
at every call site). -/
def lookupRadius (l : List (Point2 × ℝ)) (k : Point2) : ℝ :=
  match l with
  | [] => 0
  | kv :: rest => if kv.1 = k then kv.2 else lookupRadius rest k

/-- The endpoint-gathering loop of `get_horizontal_surface_edges`
(source lines 50–58): each runway's (possibly special-surface-extended)
endpoints keyed to its horizontal-surface radius. -/
def buildPSV : List Runway → List (Point2 × ℝ) →
    Except PyErr (List (Point2 × ℝ))
  | [], acc => .ok acc
  | rw :: rest, acc => do
      let eps ←
        if rw.special_surface then
          getPair (extend_points_in_both_directions rw.end1.point
            rw.end2.point 200)
        else .ok (rw.end1.point, rw.end2.point)
      let r := rw.calc_hsurface_radius
      buildPSV rest (upsertRadius (upsertRadius acc eps.1 r) eps.2 r)

/-- The standard-form coefficients `(a, b, c)` the tangent-validity loop
computes for the candidate tangent line through `p1`, `p2` (source
lines 107–117). -/
def tangentLineCoeffs (p1 p2 : Point2) : ℝ × ℝ × ℝ :=
  if p2.1 - p1.1 = 0 then (1, 0, -p1.1)
  else
    let m := (p2.2 - p1.2) / (p2.1 - p1.1)
    (-m, 1, m * p1.1 - p1.2)

/-- The inner `u`-validity loop of `get_horizontal_surface_edges`
(source lines 93–129): the candidate tangent must miss every perimeter
segment, and meet any third circle in at most one point. -/
def validTangent (eps : List Point2) (rad : Point2 → ℝ)
    (current secondary : ℕ) (p1 p2 : Point2) : Prop :=
  ∀ u, u < eps.length →
    (¬ lis_4p_nonempty p1 p2 (eps.getD u (0, 0))
      (eps.getD ((u + 1) % eps.length) (0, 0))) ∧
    (u ≠ current → u ≠ secondary →
      (line_intersects_circle (tangentLineCoeffs p1 p2).1
          (tangentLineCoeffs p1 p2).2.1 (tangentLineCoeffs p1 p2).2.2
          (eps.getD u (0, 0)) (rad (eps.getD u (0, 0)))).length = 0 ∨
      (line_intersects_circle (tangentLineCoeffs p1 p2).1
          (tangentLineCoeffs p1 p2).2.1 (tangentLineCoeffs p1 p2).2.2
          (eps.getD u (0, 0)) (rad (eps.getD u (0, 0)))).length = 1)

/-- The inner `j`-search loop of `get_horizontal_surface_edges` (source
lines 75–137): starting from circle index `secondary` and stepping
`(secondary + 1) % n` for `n` iterations (the fuel), find the first
other, non-contained circle whose right external tangent from circle
`current` is valid. -/
def findTangent (eps : List Point2) (rad : Point2 → ℝ) (current : ℕ) :
    ℕ → ℕ → Option (ℕ × Point2 × Point2)
  | _, 0 => none
  | secondary, fuel + 1 =>
      let c1 := eps.getD current (0, 0)
      let c2 := eps.getD secondary (0, 0)
      if secondary = current ∨
          circle_in_circle c1 (rad c1) c2 (rad c2) then
        findTangent eps rad current ((secondary + 1) % eps.length) fuel
      else
        match cet2cr c1 (rad c1) c2 (rad c2) with
        | p1 :: p2 :: _ =>
            if validTangent eps rad current secondary p1 p2 then
              some (secondary, p1, p2)
            else
              findTangent eps rad current ((secondary + 1) % eps.length)
                fuel
        | _ =>
            findTangent eps rad current ((secondary + 1) % eps.length)
              fuel

/-- The outer `i`-walk of `get_horizontal_surface_edges` (source
lines 66–144): for each circle in counter-clockwise order, append the
found tangent edge, preceded by an arc around the current circle when a
previous edge exists. -/
def hsWalk (eps : List Point2) (rad : Point2 → ℝ) : List HEdge :=
  (List.range eps.length).foldl (fun edges i =>
    match findTangent eps rad i i eps.length with
    | some (_, p1, p2) =>
        edges ++
          (if edges.isEmpty then []
           else [HEdge.arc (eps.getD i (0, 0))
              (calc_distance (eps.getD i (0, 0)) p1)]) ++
          [HEdge.edge p1 p2 none]
    | none => edges) []

/-- `surfaces.get_horizontal_surface_edges`.  The closing edge (source
line 146) is constructed as a plain `Edge` carrying a center — not an
`Arc` — exactly as in the source; `edges[-1].p2` on an `Arc` (which has
no `p2`) would raise `AttributeError`, and on an empty list
`IndexError`. -/
def get_horizontal_surface_edges (runways : List Runway) :
    Except PyErr (List HEdge) :=
  if runways = [] then .ok []
  else do
    let psv ← buildPSV runways []
    let endpoints := sort_directional (psv.map Prod.fst)
    let rad : Point2 → ℝ := fun p => lookupRadius psv p
    let edges := hsWalk endpoints rad
    match edges.getLast?, edges.head? with
    | some (HEdge.edge _ lastP2 _), some (HEdge.edge firstP1 _ _) =>
        .ok (edges ++ [HEdge.edge lastP2 firstP1
          (some (endpoints.getD 0 (0, 0)))])
    | some _, some _ => .error .attributeError
    | _, _ => .error .indexError

/-! ## surfaces: per-runway surface builders -/

/-- `surfaces.get_primary_surface_vertices`: `none` models the empty
dict returned on degenerate runways. -/
def get_primary_surface_vertices (rw : Runway) :
    Except PyErr (Option PSurf) := do
  let endpoints ←
    if rw.special_surface then
      getPair (extend_points_in_both_directions rw.end1.point
        rw.end2.point 200)
    else .ok (rw.end1.point, rw.end2.point)
  let w := rw.calc_psurface_width / 2
  match create_right_triangle endpoints.1 endpoints.2 w,
      create_right_triangle endpoints.2 endpoints.1 w with
  | some side2, some side1 => .ok (some (side1, side2))
  | _, _ => .ok none

/-- `surfaces.get_approach_surface_vertices`.  Faithful to the source's
bug: the *second* end's corridor is extended by the *first* end's
length (source lines 234/236 read `end1_dimensions`) and offset by the
first end's half-width (`w`, never recomputed after line 218); the
second end's own `width` is read (line 230) but unused. -/
def get_approach_surface_vertices (end_infos : ApproachDim × ApproachDim)
    (psurface_vertices : Option PSurf) : Except PyErr ASurf := do
  match psurface_vertices with
  | none => .error .keyError
  | some (end1_vertices, end2_vertices) => do
      let end1_midpoint : Point2 :=
        ((end1_vertices.1.1 + end1_vertices.2.1) / 2,
         (end1_vertices.1.2 + end1_vertices.2.2) / 2)
      let end2_midpoint : Point2 :=
        ((end2_vertices.1.1 + end2_vertices.2.1) / 2,
         (end2_vertices.1.2 + end2_vertices.2.2) / 2)
      let width ← getKey end_infos.1.width
      let length ←
        if end_infos.1.typ = ApproachTypes.precision_instrument then do
          let pl ← getKey end_infos.1.primary_length
          let sl ← getKey end_infos.1.secondary_length
          pure (pl + sl)
        else getKey end_infos.1.length
      let cl ← getPair (extend_point_in_one_direction end2_midpoint
        end1_midpoint length)
      let w := width / 2
      let triangle ← getPair (create_right_triangle end1_midpoint cl w)
      let verts1 : List Point2 :=
        [end1_vertices.1, end1_vertices.2, triangle.2, triangle.1]
      let _width2 ← getKey end_infos.2.width
      let length2 ←
        if end_infos.2.typ = ApproachTypes.precision_instrument then do
          let pl ← getKey end_infos.1.primary_length
          let sl ← getKey end_infos.1.secondary_length
          pure (pl + sl)
        else getKey end_infos.1.length
      let cl2 ← getPair (extend_point_in_one_direction end1_midpoint
        end2_midpoint length2)
      let triangle2 ← getPair (create_right_triangle end2_midpoint cl2 w)
      .ok (verts1,
        [end2_vertices.1, end2_vertices.2, triangle2.2, triangle2.1])

/-- `surfaces.get_transitional_surface_vertices`: the two 6-vertex
strips flanking the runway. -/
def get_transitional_surface_vertices (psurface_vertices : Option PSurf)
    (asurfaces : ASurf) : Except PyErr (List Point2 × List Point2) := do
  match psurface_vertices with
  | none => .error .indexError
  | some (end1_vertices, end2_vertices) => do
      let d := calc_dist_for_height (1 / 7) 150
      let ext1 ← getPair (extend_points_in_both_directions
        end1_vertices.1 end1_vertices.2 d)
      let ext2 ← getPair (extend_points_in_both_directions
        end2_vertices.1 end2_vertices.2 d)
      let v1 := ext1.1
      let v2 := ext1.2
      let v3 := ext2.1
      let v4 := ext2.2
      let s1 : List Point2 := [end1_vertices.1, asurfaces.1.getD 3 (0, 0),
        v1, v4, asurfaces.2.getD 2 (0, 0), end2_vertices.2]
      let s2 : List Point2 := [end2_vertices.1, asurfaces.2.getD 3 (0, 0),
        v3, v2, asurfaces.1.getD 2 (0, 0), end1_vertices.2]
      .ok (s1, s2)

/-! ## surfaces: containment tests -/

/-- `surfaces.is_in_horizontal_surface`: all straight edges strictly to
the left (side `≥ 1`), all arcs' circles containing the point. -/
def is_in_horizontal_surface (position : Point2)
    (hsurface : List HEdge) : Prop :=
  ∀ e ∈ hsurface,
    match e with
    | HEdge.arc c r => is_in_circle position c r
    | HEdge.edge p1 p2 _ => get_side_of_line position p1 p2 ≥ 1

/-- The edge loop of `surfaces.is_in_conical_surface`: first matching
edge wins. -/
def conicalWalk (position : Point3) (eae : ℝ) :
    List HEdge → Except PyErr (Option (ℝ → ℝ → ℝ))
  | [] => .ok none
  | HEdge.arc c r :: rest =>
      let cone1 := get_cone (t3d c (eae + 150)) r (eae + 150)
      let cone2 := get_cone (t3d c (eae + 150)) (r + 4000) (eae + 350)
      if cone2 position.1 position.2.1 ≤ position.2.2 ∧
          position.2.2 ≤ cone1 position.1 position.2.1 then
        .ok (some cone1)
      else conicalWalk position eae rest
  | HEdge.edge p1 p2 _ :: rest => do
      let distance := distance_to_line (t2d position) p1 p2
      let tr ← getPair (create_right_triangle p1 p2 4000)
      let t := t3d tr.1 (eae + 350)
      let plane := get_plane (t3d p1 (eae + 150)) (t3d p2 (eae + 150)) t
      if distance ≤ 4000 ∧ is_within_segment (t2d position) p1 p2 ∧
          position.2.2 ≤ plane position.1 position.2.1 then
        .ok (some plane)
      else conicalWalk position eae rest

/-- `surfaces.is_in_conical_surface`. -/
def is_in_conical_surface (position : Point3) (hsurface : List HEdge)
    (eae : ℝ) : Except PyErr (Option (ℝ → ℝ → ℝ)) :=
  if position.2.2 < eae + 150 then .ok none
  else conicalWalk position eae hsurface

/-- `surfaces.is_in_approach_surface`. -/
def is_in_approach_surface (position : Point3) (asurface : List Point2)
    (approach_dimensions : ApproachDim) (eae : ℝ) :
    Except PyErr (Option (ℝ → ℝ → ℝ)) := do
  let p1 := t3d (asurface.getD 0 (0, 0)) eae
  let p2 := t3d (asurface.getD 1 (0, 0)) eae
  if approach_dimensions.typ = ApproachTypes.precision_instrument then
    if ¬ is_in_polygon (t2d position) asurface true false then .ok none
    else do
      let pslope ← getKey approach_dimensions.primary_slope
      let plength ← getKey approach_dimensions.primary_length
      let h := eae + pslope * plength
      let p31 := t3d (asurface.getD 3 (0, 0)) h
      let sslope ← getKey approach_dimensions.secondary_slope
      let slength ← getKey approach_dimensions.secondary_length
      let p32 := t3d (asurface.getD 3 (0, 0)) (h + sslope * slength)
      let midpoint : Point2 :=
        (((asurface.getD 0 (0, 0)).1 + (asurface.getD 1 (0, 0)).1) / 2,
         ((asurface.getD 0 (0, 0)).2 + (asurface.getD 1 (0, 0)).2) / 2)
      let tt ← getPair (create_right_triangle (asurface.getD 0 (0, 0))
        midpoint plength)
      let projection0 := proj
        (position.1 - midpoint.1, position.2.1 - midpoint.2)
        (tt.1.1 - midpoint.1, tt.1.2 - midpoint.2)
      let projection : Point2 :=
        (projection0.1 + midpoint.1, projection0.2 + midpoint.2)
      if calc_distance projection midpoint ≤ plength then
        let plane := get_plane p1 p2 p31
        if position.2.2 ≤ plane position.1 position.2.1 then
          .ok (some plane)
        else .ok none
      else
        let plane := get_plane p1 p2 p32
        if position.2.2 ≤ plane position.1 position.2.1 then
          .ok (some plane)
        else .ok none
  else do
    let slope ← getKey approach_dimensions.slope
    let length ← getKey approach_dimensions.length
    let h := eae + slope * length
    let p3 := t3d (asurface.getD 3 (0, 0)) h
    let plane := get_plane p1 p2 p3
    if is_in_polygon (t2d position) asurface true false ∧
        position.2.2 ≤ plane position.1 position.2.1 then
      .ok (some plane)
    else .ok none

/-- `surfaces.is_in_transitional_surface`. -/
def is_in_transitional_surface (position : Point3)
    (tsurface : List Point2) (eae : ℝ) : Option (ℝ → ℝ → ℝ) :=
  let p1 := t3d (tsurface.getD 0 (0, 0)) eae
  let p2 := t3d (tsurface.getD (tsurface.length - 1) (0, 0)) eae
  let p3 := t3d (tsurface.getD 2 (0, 0)) (eae + 150)
  let plane := get_plane p1 p2 p3
  if is_in_polygon (t2d position) tsurface true false ∧
      position.2.2 ≤ plane position.1 position.2.1 then
    some plane
  else none

/-! ## surfaces.get_zone_information -/

/-- The values the `"zone"` key of the result dict can take. -/
inductive Zone : Type where
  | na
  | horizontal
  | conical
  | primary
  | transitional
  | approach
  deriving DecidableEq, Repr

/-- The result dict of `get_zone_information`: `build_limit` is the
optional `"build_limit"` key; `runway_rec`/`end_rec` record the presence
of the `"runway"`/`"end"` keys (their values would be the names the
source tries to read). -/
structure ZoneInfo : Type where
  zone : Zone
  build_limit : Option ℝ
  runway_rec : Bool
  end_rec : Bool

/-- The zones whose recording writes a `runway.name` (and for Approach
an `end.name`) into the result dict — the writes that raise
`AttributeError` in the source. -/
def recZone (z : Zone) : Prop :=
  z = Zone.primary ∨ z = Zone.transitional ∨ z = Zone.approach

/-- The value a transitional- or approach-surface bound proposes at the
query point, when the point is inside that surface:
`is_in_transitional_surface` evaluated at `(x, y)`. -/
def transCand (position : Point3) (eae : ℝ) (strip : List Point2) :
    Option ℝ :=
  (is_in_transitional_surface position strip eae).map
    (fun f => f position.1 position.2.1)

/-- `is_in_approach_surface` evaluated at `(x, y)`. -/
def approachCand (position : Point3) (eae : ℝ) (asurface : List Point2)
    (dim : ApproachDim) : Except PyErr (Option ℝ) :=
  (is_in_approach_surface position asurface dim eae).map
    (fun o => o.map (fun f => f position.1 position.2.1))

/-- One overwrite site of the loop of `get_zone_information`, as
executed by the source: when the applicable surface proposes a strictly
higher limit, the source writes `info["runway"] = runway.name`, and
`Runway.__init__` never sets `name`, so an `AttributeError` is
raised. -/
def siteR (cand : Except PyErr (Option ℝ)) (s : ℝ × ZoneInfo) :
    Except PyErr (ℝ × ZoneInfo) := do
  match ← cand with
  | none => .ok s
  | some z => if z > s.1 then .error .attributeError else .ok s

/-- One overwrite site of the classification semantics: the record
succeeds and updates the state. -/
def siteT (upd : ℝ → ZoneInfo → ZoneInfo)
    (cand : Except PyErr (Option ℝ)) (s : ℝ × ZoneInfo) :
    Except PyErr (ℝ × ZoneInfo) := do
  match ← cand with
  | none => .ok s
  | some z => if z > s.1 then .ok (z, upd z s.2) else .ok s

/-- The dict updates performed by a transitional-surface record (source
lines 481–484: keys `runway`, `zone`, `build_limit`; any stale `end` key
is kept). -/
def transUpd (z : ℝ) (info : ZoneInfo) : ZoneInfo :=
  { info with
      zone := Zone.transitional
      build_limit := some z
      runway_rec := true }

/-- The dict updates performed by an approach-surface record (source
lines 493–498). -/
def approachUpd (z : ℝ) (info : ZoneInfo) : ZoneInfo :=
  { info with
      zone := Zone.approach
      build_limit := some z
      runway_rec := true
      end_rec := true }

/-- `list(psurface.values())` flattened into the vertex list `v` of the
primary-surface check (source lines 462–466). -/
def psurfFlatten (ps : Option PSurf) : List Point2 :=
  match ps with
  | none => []
  | some (s1, s2) => [s1.1, s1.2, s2.1, s2.2]

/-- The `for runway in runways` loop of `get_zone_information` (source
lines 455–498), threading `(build_limit, info)`.  Each name-recording
write raises `AttributeError`. -/
def zoneLoopR (position : Point3) (eae : ℝ) (in_h : Prop) :
    List Runway → ℝ → ZoneInfo → Except PyErr ZoneInfo
  | [], _, info => .ok info
  | rw :: rest, bl, info => do
      let approach_dimensions := rw.calc_approach_dimensions
      let psurface ← get_primary_surface_vertices rw
      let asurfaces ← get_approach_surface_vertices approach_dimensions
        psurface
      let tsurfaces ← get_transitional_surface_vertices psurface asurfaces
      if in_h then
        if is_in_polygon (t2d position) (psurfFlatten psurface) then
          .error .attributeError
        else do
          let s1 ← siteR (pure (transCand position eae tsurfaces.1))
            (bl, info)
          let s2 ← siteR (pure (transCand position eae tsurfaces.2)) s1
          let s3 ← siteR (approachCand position eae asurfaces.1
            approach_dimensions.1) s2
          let s4 ← siteR (approachCand position eae asurfaces.2
            approach_dimensions.2) s3
          zoneLoopR position eae in_h rest s4.1 s4.2
      else do
        let s3 ← siteR (approachCand position eae asurfaces.1
          approach_dimensions.1) (bl, info)
        let s4 ← siteR (approachCand position eae asurfaces.2
          approach_dimensions.2) s3
        zoneLoopR position eae in_h rest s4.1 s4.2

/-- The loop of the classification semantics: identical control flow,
but the records succeed (see `get_zone_classification`). -/
def zoneLoopT (position : Point3) (eae : ℝ) (in_h : Prop) :
    List Runway → ℝ → ZoneInfo → Except PyErr ZoneInfo
  | [], _, info => .ok info
  | rw :: rest, bl, info => do
      let approach_dimensions := rw.calc_approach_dimensions
      let psurface ← get_primary_surface_vertices rw
      let asurfaces ← get_approach_surface_vertices approach_dimensions
        psurface
      let tsurfaces ← get_transitional_surface_vertices psurface asurfaces
      if in_h then
        if is_in_polygon (t2d position) (psurfFlatten psurface) then
          .ok { info with
              zone := Zone.primary
              build_limit := some eae
              runway_rec := true }
        else do
          let s1 ← siteT transUpd
            (pure (transCand position eae tsurfaces.1)) (bl, info)
          let s2 ← siteT transUpd
            (pure (transCand position eae tsurfaces.2)) s1
          let s3 ← siteT approachUpd (approachCand position eae
            asurfaces.1 approach_dimensions.1) s2
          let s4 ← siteT approachUpd (approachCand position eae
            asurfaces.2 approach_dimensions.2) s3
          zoneLoopT position eae in_h rest s4.1 s4.2
      else do
        let s3 ← siteT approachUpd (approachCand position eae
          asurfaces.1 approach_dimensions.1) (bl, info)
        let s4 ← siteT approachUpd (approachCand position eae
          asurfaces.2 approach_dimensions.2) s3
        zoneLoopT position eae in_h rest s4.1 s4.2

/-- The state `(build_limit, info)` after the horizontal/conical stage
of `get_zone_information` (source lines 434–453), before the runway
loop. -/
def zoneStart (position : Point3) (hsurface : List HEdge) (eae : ℝ) :
    Except PyErr (ℝ × ZoneInfo) :=
  if is_in_horizontal_surface (t2d position) hsurface then
    .ok (eae, { zone := Zone.horizontal
                build_limit := some eae
                runway_rec := false
                end_rec := false })
  else do
    match ← is_in_conical_surface position hsurface eae with
    | some func =>
        let z := func position.1 position.2.1
        .ok (z, { zone := Zone.conical
                  build_limit := some z
                  runway_rec := false
                  end_rec := false })
    | none =>
        .ok (eae, { zone := Zone.na
                    build_limit := none
                    runway_rec := false
                    end_rec := false })

/-- `surfaces.get_zone_information`: the zone classifier as written,
over the `Runway`/`RunwayEnd` objects the constructors in `runway.py`
actually build (which have no `name` attribute). -/
def get_zone_information (position : Point3) (runways : List Runway)
    (eae : ℝ) : Except PyErr ZoneInfo := do
  let hsurface ← get_horizontal_surface_edges runways
  let s ← zoneStart position hsurface eae
  zoneLoopR position eae (is_in_horizontal_surface (t2d position) hsurface)
    runways s.1 s.2

/-- Modelled from the spec: the classification `get_zone_information`
describes, with the recording of the runway/end identities — whose
`name` attributes the `Runway`/`RunwayEnd` constructors never define —
replaced by presence flags, so that the classification itself (zone and
threaded build limit) can be stated and compared with the raising
behaviour of `get_zone_information`. -/
def get_zone_classification (position : Point3) (runways : List Runway)
    (eae : ℝ) : Except PyErr ZoneInfo := do
  let hsurface ← get_horizontal_surface_edges runways
  let s ← zoneStart position hsurface eae
  zoneLoopT position eae (is_in_horizontal_surface (t2d position) hsurface)
    runways s.1 s.2

/-- The per-runway applicable-surface proposals, in loop order: the two
transitional strips (only tested inside the horizontal surface) and the
two approach surfaces. -/
def runwayProposalsLoop (position : Point3) (eae : ℝ) (in_h : Prop) :
    List Runway → Except PyErr (List ℝ)
  | [] => .ok []
  | rw :: rest => do
      let dims := rw.calc_approach_dimensions
      let psurface ← get_primary_surface_vertices rw
      let asurfaces ← get_approach_surface_vertices dims psurface
      let tsurfaces ← get_transitional_surface_vertices psurface asurfaces
      let a1 ← approachCand position eae asurfaces.1 dims.1
      let a2 ← approachCand position eae asurfaces.2 dims.2
      let here :=
        (if in_h then (transCand position eae tsurfaces.1).toList ++
            (transCand position eae tsurfaces.2).toList
         else []) ++ a1.toList ++ a2.toList
      let restP ← runwayProposalsLoop position eae in_h rest
      .ok (here ++ restP)

/-- All build limits proposed by applicable non-primary surfaces at the
query point, in the order the loop of `get_zone_information` tests
them. -/
def surfaceProposals (position : Point3) (runways : List Runway)
    (eae : ℝ) : Except PyErr (List ℝ) := do
  let hsurface ← get_horizontal_surface_edges runways
  runwayProposalsLoop position eae
    (is_in_horizontal_surface (t2d position) hsurface) runways

/-- The build limit entering the runway loop: `eae`, except when the
point is outside the horizontal surface and inside the conical surface,
where it is the conical bound at the point. -/
def initialBuildLimit (position : Point3) (runways : List Runway)
    (eae : ℝ) : Except PyErr ℝ := do
  let hsurface ← get_horizontal_surface_edges runways
  let s ← zoneStart position hsurface eae
  .ok s.1

/-! ## Shared evaluation helpers -/

/-- Evaluate a square root at a perfect square. -/
theorem sqrt_eval {x c : ℝ} (hc : 0 ≤ c) (h : x = c ^ 2) :
    Real.sqrt x = c := by
  rw [h, Real.sqrt_sq hc]

/-- Evaluate `calc_distance` at concrete points. -/
theorem calc_distance_eval {x1 y1 x2 y2 c : ℝ} (hc : 0 ≤ c)
    (h : (x1 - x2) ^ 2 + (y1 - y2) ^ 2 = c ^ 2) :
    calc_distance (x1, y1) (x2, y2) = c := by
  unfold calc_distance
  exact sqrt_eval hc h

/-- `calc_distance` is nonnegative. -/
theorem calc_distance_nonneg (p1 p2 : Point2) : 0 ≤ calc_distance p1 p2 :=
  Real.sqrt_nonneg _

/-! ## C10: circle_in_circle -/

/-- C10: for all centers and radii `≥ 0`, `circle_in_circle` holds iff
the distance between the centers plus the smaller radius is at most the
larger radius; and every circle contains itself,
`circle_in_circle c r c r`. -/
theorem circle_in_circle_spec :
    (∀ (c1 : Point2) (r1 : ℝ) (c2 : Point2) (r2 : ℝ), 0 ≤ r1 → 0 ≤ r2 →
      (circle_in_circle c1 r1 c2 r2 ↔
        calc_distance c1 c2 + min r1 r2 ≤ max r1 r2)) ∧
    (∀ (c : Point2) (r : ℝ), circle_in_circle c r c r) := by
  constructor
  · intro c1 r1 c2 r2 _ _
    have hd : 0 ≤ calc_distance c1 c2 := calc_distance_nonneg c1 c2
    unfold circle_in_circle
    constructor
    · rintro (h | h)
      · have hr : r2 ≤ r1 := by linarith
        rw [min_eq_right hr, max_eq_left hr]
        linarith
      · have hr : r1 ≤ r2 := by linarith
        rw [min_eq_left hr, max_eq_right hr]
        linarith
    · intro h
      rcases le_total r1 r2 with hr | hr
      · right
        rw [min_eq_left hr, max_eq_right hr] at h
        linarith
      · left
        rw [min_eq_right hr, max_eq_left hr] at h
        linarith
  · intro c r
    unfold circle_in_circle
    have : calc_distance c c = 0 := by
      apply calc_distance_eval le_rfl
      ring
    left
    rw [this]
    linarith

/-- Witness for C10 at a concrete instance: the circle of radius `1`
about `(3, 4)` lies inside the circle of radius `7` about the origin. -/
theorem circle_in_circle_spec_witness :
    circle_in_circle ((0 : ℝ), (0 : ℝ)) 7 ((3 : ℝ), (4 : ℝ)) 1 := by
  have h := (circle_in_circle_spec.1 (0, 0) 7 (3, 4) 1 (by norm_num)
    (by norm_num)).mpr
  apply h
  have hd : calc_distance ((0 : ℝ), (0 : ℝ)) ((3 : ℝ), (4 : ℝ)) = 5 :=
    calc_distance_eval (by norm_num) (by norm_num)
  rw [hd]
  norm_num

/-! ## C4: get_plane -/

/-- C4 failing input: for the non-collinear points `a = (0,0,0)`,
`b = (1,0,0)`, `c = (0,1,1)` (a non-vertical plane), the function
returned by `get_plane` evaluates to `-1` at `c`'s projection `(0, 1)`
instead of `c`'s height `1` — the middle component of `cross` has the
wrong sign, so the returned plane does not pass through the three
points. -/
theorem get_plane_failing_input :
    get_plane ((0 : ℝ), (0 : ℝ), (0 : ℝ)) (1, 0, 0) (0, 1, 1) 0 1 = -1 ∧
    ((-1 : ℝ) ≠ 1) := by
  constructor
  · unfold get_plane cross
    norm_num
  · norm_num

/-! ## C6: calc_approach_dimensions for precision ends -/

/-- A runway whose `end1` has a precision-instrument approach. -/
def rwPrecEnd1 : Runway :=
  { runway_type := RunwayTypes.precision_instrument
    end1 := { point := (0, 0),
              approach_type := ApproachTypes.precision_instrument }
    end2 := { point := (2000, 0), approach_type := ApproachTypes.visual } }

/-- A runway whose `end2` has a precision-instrument approach. -/
def rwPrecEnd2 : Runway :=
  { runway_type := RunwayTypes.precision_instrument
    end1 := { point := (0, 0), approach_type := ApproachTypes.visual }
    end2 := { point := (2000, 0),
              approach_type := ApproachTypes.precision_instrument } }

/-- A runway whose `end1` is precision and whose `end2` is a
non-precision-instrument approach with visibility minimums below 0.75
(so the `end2` chain assigns no width of its own). -/
def rwPrecEnd1Npi2 : Runway :=
  { runway_type := RunwayTypes.precision_instrument
    end1 := { point := (0, 0),
              approach_type := ApproachTypes.precision_instrument }
    end2 := { point := (2000, 0),
              approach_type := ApproachTypes.non_precision_instrument } }

/-- C6: `calc_approach_dimensions` does not treat a precision `end1`
like a precision `end2`.  A precision `end1` receives the single key
`length = 50000` and no `primary_length`/`secondary_length` split (and
its branch also writes `width = 16000` into `end2`'s dict, as the third
conjunct block shows); only a precision `end2` receives
`primary_length = 10000` and `secondary_length = 40000`.  The slopes
`0.02 = 1/50` and `0.025 = 1/40` match the claim. -/
theorem calc_approach_dimensions_precision_asymmetric :
    ((rwPrecEnd1.calc_approach_dimensions).1.length = some 50000 ∧
     (rwPrecEnd1.calc_approach_dimensions).1.primary_length = none ∧
     (rwPrecEnd1.calc_approach_dimensions).1.secondary_length = none ∧
     (rwPrecEnd1.calc_approach_dimensions).1.width = some 16000 ∧
     (rwPrecEnd1.calc_approach_dimensions).1.primary_slope = some 0.02 ∧
     (rwPrecEnd1.calc_approach_dimensions).1.secondary_slope =
       some 0.025) ∧
    ((rwPrecEnd2.calc_approach_dimensions).2.primary_length =
       some 10000 ∧
     (rwPrecEnd2.calc_approach_dimensions).2.secondary_length =
       some 40000 ∧
     (rwPrecEnd2.calc_approach_dimensions).2.width = some 16000 ∧
     (rwPrecEnd2.calc_approach_dimensions).2.length = none) ∧
    ((rwPrecEnd1Npi2.calc_approach_dimensions).2.width = some 16000) ∧
    ((0.02 : ℝ) = 1 / 50 ∧ (0.025 : ℝ) = 1 / 40) := by
  refine ⟨?_, ?_, ?_, ?_⟩
  · simp [rwPrecEnd1, Runway.calc_approach_dimensions]
  · simp [rwPrecEnd2, Runway.calc_approach_dimensions]
  · simp [rwPrecEnd1Npi2, Runway.calc_approach_dimensions]
    norm_num
  · norm_num

/-! ## C7: calc_psurface_width -/

/-- Modelled from the spec's words for comparison with
`Runway.calc_psurface_width`: the claim's table, in which the 1000-ft
non-precision row requires a non-precision-instrument approach at
*both* ends. -/
def calc_psurface_width_spec (rw : Runway) : ℝ :=
  let visual_only := rw.end1.approach_type = ApproachTypes.visual ∧
    rw.end2.approach_type = ApproachTypes.visual
  let npia_both :=
    rw.end1.approach_type = ApproachTypes.non_precision_instrument ∧
    rw.end2.approach_type = ApproachTypes.non_precision_instrument
  if rw.runway_type = RunwayTypes.utility ∧ visual_only then 250
  else if rw.runway_type = RunwayTypes.utility then 500
  else if rw.runway_type = RunwayTypes.visual ∧ visual_only then 500
  else if rw.runway_type = RunwayTypes.non_precision_instrument ∧
      npia_both ∧ rw.visiblity_minimums ≥ 0.75 then 1000
  else if rw.runway_type = RunwayTypes.non_precision_instrument ∧
      rw.visiblity_minimums > 0.75 then 500
  else if rw.runway_type = RunwayTypes.precision_instrument then 1000
  else 0

/-- The claim's table amended as the counterexample forces: the source's
`has_npia` tests a non-precision-instrument approach at *either* end,
and the 500-ft row applies only when *neither* end has one. -/
def calc_psurface_width_amended (rw : Runway) : ℝ :=
  let visual_only := rw.end1.approach_type = ApproachTypes.visual ∧
    rw.end2.approach_type = ApproachTypes.visual
  let has_npia :=
    rw.end1.approach_type = ApproachTypes.non_precision_instrument ∨
    rw.end2.approach_type = ApproachTypes.non_precision_instrument
  if rw.runway_type = RunwayTypes.utility ∧ visual_only then 250
  else if rw.runway_type = RunwayTypes.utility then 500
  else if rw.runway_type = RunwayTypes.visual ∧ visual_only then 500
  else if rw.runway_type = RunwayTypes.non_precision_instrument ∧
      has_npia ∧ rw.visiblity_minimums ≥ 0.75 then 1000
  else if rw.runway_type = RunwayTypes.non_precision_instrument ∧
      ¬ has_npia ∧ rw.visiblity_minimums > 0.75 then 500
  else if rw.runway_type = RunwayTypes.precision_instrument then 1000
  else 0

/-- A non-precision-instrument runway with a non-precision approach at
`end1` only and visibility minimums of 1 statute mile. -/
def rwNpiOneEnd : Runway :=
  { runway_type := RunwayTypes.non_precision_instrument
    end1 := { point := (0, 0),
              approach_type := ApproachTypes.non_precision_instrument }
    end2 := { point := (2000, 0), approach_type := ApproachTypes.visual }
    visiblity_minimums := 1 }

/-- C7 counterexample: on a non-precision-instrument runway with a
non-precision approach at only one end and visibility minimums 1 mi,
the source returns 1000 ft while the claim's table (both ends) gives
500 ft. -/
theorem calc_psurface_width_spec_counterexample :
    Runway.calc_psurface_width rwNpiOneEnd = 1000 ∧
    calc_psurface_width_spec rwNpiOneEnd = 500 ∧
    Runway.calc_psurface_width rwNpiOneEnd ≠
      calc_psurface_width_spec rwNpiOneEnd := by
  refine ⟨?_, ?_, ?_⟩
  · simp [rwNpiOneEnd, Runway.calc_psurface_width]
    norm_num
  · simp [rwNpiOneEnd, calc_psurface_width_spec]
    norm_num
  · simp [rwNpiOneEnd, Runway.calc_psurface_width,
      calc_psurface_width_spec]
    norm_num

/-- C7 amended: `calc_psurface_width` returns exactly the claim's table
with "both ends" replaced by "either end" in the 1000-ft row, and the
500-ft row restricted to runways with no non-precision-instrument
approach at either end. -/
theorem calc_psurface_width_characterization (rw : Runway) :
    rw.calc_psurface_width = calc_psurface_width_amended rw := by
  rcases rw with ⟨rt, ⟨p1, a1⟩, ⟨p2, a2⟩, ss, vm⟩
  cases rt <;> cases a1 <;> cases a2 <;>
    simp [Runway.calc_psurface_width, calc_psurface_width_amended] <;>
    split_ifs <;> first | rfl | norm_num | tauto

/-- Evaluate `create_right_triangle` at points a known distance apart. -/
theorem create_right_triangle_eval {ax ay bx b2 w l : ℝ} (hl : 0 < l)
    (h : (ax - bx) ^ 2 + (ay - b2) ^ 2 = l ^ 2) :
    create_right_triangle (ax, ay) (bx, b2) w =
      some ((bx - w * (b2 - ay) / l, b2 + w * (bx - ax) / l),
            (bx + w * (b2 - ay) / l, b2 - w * (bx - ax) / l)) := by
  unfold create_right_triangle
  rw [calc_distance_eval hl.le h]
  rw [if_neg hl.ne']

/-- Evaluate `extend_point_in_one_direction` at points a known distance
apart. -/
theorem extend_point_eval {p1x p1y p2x p2y amount l : ℝ} (hl : 0 < l)
    (h : (p2x - p1x) ^ 2 + (p2y - p1y) ^ 2 = l ^ 2) :
    extend_point_in_one_direction (p1x, p1y) (p2x, p2y) amount =
      some ((amount / l + 1) * (p2x - p1x) + p1x,
            (amount / l + 1) * (p2y - p1y) + p1y) := by
  simp only [extend_point_in_one_direction]
  rw [sqrt_eval hl.le h]
  rw [if_neg hl.ne']

/-! ## C5: get_approach_surface_vertices with differing end dimensions -/

/-- A non-precision-instrument runway (visibility minimums 1 mi) whose
ends have differing approach dimensions: `end1` is visual (width 1500,
length 5000), `end2` non-precision (width 3500, length 10000). -/
def rwMixedDims : Runway :=
  { runway_type := RunwayTypes.non_precision_instrument
    end1 := { point := (0, 0), approach_type := ApproachTypes.visual }
    end2 := { point := (1000, 0),
              approach_type := ApproachTypes.non_precision_instrument }
    visiblity_minimums := 1 }

/-- The approach dimensions of `rwMixedDims`, per end. -/
theorem rwMixedDims_dims :
    rwMixedDims.calc_approach_dimensions =
      ({ typ := ApproachTypes.visual
         width := some 1500
         length := some 5000
         slope := some 0.05 },
       { typ := ApproachTypes.non_precision_instrument
         width := some 3500
         length := some 10000
         slope := some (1 / 34) }) := by
  simp [rwMixedDims, Runway.calc_approach_dimensions]
  norm_num


/-- Reduce a successful `Except` bind. -/
theorem except_bind_ok {α β : Type} (a : α) (f : α → Except PyErr β) :
    (Except.ok a >>= f : Except PyErr β) = f a := rfl

/-- Reduce a failing `Except` bind. -/
theorem except_bind_err {α β : Type} (e : PyErr)
    (f : α → Except PyErr β) :
    ((Except.error e : Except PyErr α) >>= f) = Except.error e := rfl

/-- Reduce `getKey` on a present key. -/
theorem getKey_some (x : ℝ) : getKey (some x) = .ok x := rfl

/-- Reduce `getPair` on a present value. -/
theorem getPair_some {α : Type} (x : α) : getPair (some x) = .ok x := rfl

/-- The primary-surface vertices of `rwMixedDims` (width 1000 ft). -/
theorem rwMixedDims_psurf :
    get_primary_surface_vertices rwMixedDims =
      .ok (some (((0, -500), (0, 500)), ((1000, 500), (1000, -500)))) := by
  have hw : rwMixedDims.calc_psurface_width / 2 = 500 := by
    simp [rwMixedDims, Runway.calc_psurface_width]
    norm_num
  simp only [get_primary_surface_vertices,
    show rwMixedDims.special_surface = false from rfl,
    show rwMixedDims.end1.point = ((0 : ℝ), (0 : ℝ)) from rfl,
    show rwMixedDims.end2.point = ((1000 : ℝ), (0 : ℝ)) from rfl,
    Bool.false_eq_true, if_false, except_bind_ok, hw]
  rw [create_right_triangle_eval (l := 1000) (by norm_num) (by norm_num),
    create_right_triangle_eval (l := 1000) (by norm_num) (by norm_num)]
  norm_num

/-- C5: `get_approach_surface_vertices` builds *both* ends' corridors
from `end1`'s dimensions.  For `rwMixedDims`, `end2`'s own dimensions
are length 10000 and width 3500 (second and third conjuncts), yet its
footprint's far corners come out at `(6000, ±750)` — the centerline
extended by `end1`'s length 5000 from the end at `x = 1000` and offset
by `end1`'s half-width 750 — instead of `(11000, ±1750)`. -/
theorem approach_vertices_use_end1_dims :
    get_primary_surface_vertices rwMixedDims =
      .ok (some (((0, -500), (0, 500)), ((1000, 500), (1000, -500)))) ∧
    (rwMixedDims.calc_approach_dimensions).2.length = some 10000 ∧
    (rwMixedDims.calc_approach_dimensions).2.width = some 3500 ∧
    get_approach_surface_vertices rwMixedDims.calc_approach_dimensions
      (some (((0, -500), (0, 500)), ((1000, 500), (1000, -500)))) =
      .ok ([(0, -500), (0, 500), (-5000, 750), (-5000, -750)],
           [(1000, 500), (1000, -500), (6000, -750), (6000, 750)]) := by
  refine ⟨rwMixedDims_psurf, ?_, ?_, ?_⟩
  · rw [rwMixedDims_dims]
  · rw [rwMixedDims_dims]
  · have e1 : extend_point_in_one_direction ((1000 : ℝ), (0 : ℝ)) (0, 0)
        5000 = some (-5000, 0) := by
      rw [extend_point_eval (l := 1000) (by norm_num) (by norm_num)]
      norm_num
    have t1 : create_right_triangle ((0 : ℝ), (0 : ℝ)) (-5000, 0) 750 =
        some ((-5000, -750), (-5000, 750)) := by
      rw [create_right_triangle_eval (l := 5000) (by norm_num)
        (by norm_num)]
      norm_num
    have e2 : extend_point_in_one_direction ((0 : ℝ), (0 : ℝ)) (1000, 0)
        5000 = some (6000, 0) := by
      rw [extend_point_eval (l := 1000) (by norm_num) (by norm_num)]
      norm_num
    have t2 : create_right_triangle ((1000 : ℝ), (0 : ℝ)) (6000, 0) 750 =
        some ((6000, 750), (6000, -750)) := by
      rw [create_right_triangle_eval (l := 5000) (by norm_num)
        (by norm_num)]
      norm_num
    have hne1 : (ApproachTypes.visual =
        ApproachTypes.precision_instrument) = False := by simp
    have hne2 : (ApproachTypes.non_precision_instrument =
        ApproachTypes.precision_instrument) = False := by simp
    have ez : (0 : Point2) = ((0 : ℝ), (0 : ℝ)) := rfl
    rw [rwMixedDims_dims]
    norm_num [get_approach_surface_vertices, getKey_some, getPair_some,
      except_bind_ok, hne1, hne2, e1, t1, e2, t2]
    rw [ez]
    simp only [e1, t1, e2, t2, getPair_some, except_bind_ok]

/-! ## A concrete single-runway scenario

The spec's own example geometry: a Utility runway with visual ends from
`(0, 0)` to `(2000, 0)` (primary-surface width 250 ft,
horizontal-surface radius 5000 ft), queried at EAE 600 ft. -/

/-- The spec's example runway: Utility, both ends visual, endpoints
`(0,0)` and `(2000,0)`. -/
def rw2000 : Runway :=
  { runway_type := RunwayTypes.utility
    end1 := { point := (0, 0), approach_type := ApproachTypes.visual }
    end2 := { point := (2000, 0), approach_type := ApproachTypes.visual } }

/-- The endpoint/radius dictionary of `rw2000`'s horizontal surface. -/
def psv2000 : List (Point2 × ℝ) := [((0, 0), 5000), ((2000, 0), 5000)]

/-- The circle centers of `rw2000`'s horizontal surface, in sorted
order. -/
def eps2000 : List Point2 := [(0, 0), (2000, 0)]

/-- The two endpoints are distinct points of the plane. -/
theorem rw2000_ends_ne : (((0 : ℝ), (0 : ℝ)) : Point2) ≠ (2000, 0) := by
  simp [Prod.ext_iff]

/-- Gathering `rw2000`'s endpoints. -/
theorem rw2000_buildPSV : buildPSV [rw2000] [] = .ok psv2000 := by
  simp only [buildPSV, show rw2000.special_surface = false from rfl,
    Bool.false_eq_true, if_false, except_bind_ok,
    show rw2000.end1.point = ((0 : ℝ), (0 : ℝ)) from rfl,
    show rw2000.end2.point = ((2000 : ℝ), (0 : ℝ)) from rfl,
    show rw2000.calc_hsurface_radius = 5000 from by
      simp [rw2000, Runway.calc_hsurface_radius]]
  simp only [upsertRadius, if_neg rw2000_ends_ne]
  rfl

/-- Sorting `rw2000`'s two endpoints counter-clockwise keeps their
order. -/
theorem rw2000_sort : sort_directional (psv2000.map Prod.fst) = eps2000 := by
  have hmap : psv2000.map Prod.fst = [((0 : ℝ), (0 : ℝ)), (2000, 0)] := rfl
  rw [hmap]
  unfold sort_directional
  rw [if_neg (by simp)]
  have hc : compute_centerpoint [((0 : ℝ), (0 : ℝ)), (2000, 0)] =
      (1000, 0) := by
    unfold compute_centerpoint
    norm_num
  rw [hc]
  simp only [sortByRel, insertByRel]
  rw [if_pos]
  · rfl
  · unfold compare_points
    rw [if_neg (by norm_num), if_pos (by norm_num)]
    norm_num

/-- The stored radius of each circle. -/
theorem rad2000_a : lookupRadius psv2000 (0, 0) = 5000 := by
  simp [psv2000, lookupRadius]

/-- The stored radius of the second circle. -/
theorem rad2000_b : lookupRadius psv2000 (2000, 0) = 5000 := by
  simp [psv2000, lookupRadius]

/-- The two circles of `rw2000` do not contain one another. -/
theorem rw2000_not_cic :
    ¬ circle_in_circle ((0 : ℝ), (0 : ℝ)) 5000 (2000, 0) 5000 := by
  unfold circle_in_circle
  rw [calc_distance_eval (c := 2000) (by norm_num) (by norm_num)]
  norm_num

/-- Nor in the reversed orientation. -/
theorem rw2000_not_cic' :
    ¬ circle_in_circle ((2000 : ℝ), (0 : ℝ)) 5000 (0, 0) 5000 := by
  unfold circle_in_circle
  rw [calc_distance_eval (c := 2000) (by norm_num) (by norm_num)]
  norm_num

/-- The bottom common tangent of the two circles, walking
`(0,0) → (2000,0)`. -/
theorem rw2000_cetA :
    cet2cr ((0 : ℝ), (0 : ℝ)) 5000 ((2000 : ℝ), (0 : ℝ)) 5000 =
      [(0, -5000), (2000, -5000)] := by
  have h25 : Real.sqrt ((25000000 : ℝ)) = 5000 :=
    sqrt_eval (by norm_num) (by norm_num)
  simp only [cet2cr, if_neg rw2000_ends_ne, if_neg rw2000_not_cic]
  norm_num [Real.arctan_zero, Real.arcsin_zero, Real.sin_zero, cetQ, h25]

/-- The top common tangent, walking `(2000,0) → (0,0)`. -/
theorem rw2000_cetB :
    cet2cr ((2000 : ℝ), (0 : ℝ)) 5000 ((0 : ℝ), (0 : ℝ)) 5000 =
      [(2000, 5000), (0, 5000)] := by
  have h25 : Real.sqrt ((25000000 : ℝ)) = 5000 :=
    sqrt_eval (by norm_num) (by norm_num)
  simp only [cet2cr, if_neg (Ne.symm rw2000_ends_ne),
    if_neg rw2000_not_cic']
  norm_num [Real.arctan_zero, Real.arcsin_zero, Real.sin_zero, cetQ, h25]

/-- A horizontal line misses a horizontal segment at another height. -/
theorem lis_4p_horiz_not (ax bx cx dx y0 y1 : ℝ) (h : bx ≠ ax)
    (hy : y0 ≠ y1) : ¬ lis_4p_nonempty (ax, y0) (bx, y0) (cx, y1) (dx, y1) := by
  rintro ⟨p, hcol, t, -, -, hp⟩
  subst hp
  simp only at hcol
  have h2 : (bx - ax) * (y1 + t * (y1 - y1) - y0) = 0 := by
    have : ((cx + t * (dx - cx), y1 + t * (y1 - y1)) : Point2).2 = y1 +
        t * (y1 - y1) := rfl
    nlinarith [hcol]
  have hb : bx - ax ≠ 0 := sub_ne_zero.mpr h
  have : y1 + t * (y1 - y1) - y0 = 0 := by
    rcases mul_eq_zero.mp h2 with h' | h'
    · exact absurd h' hb
    · exact h'
  apply hy
  nlinarith [this]

/-- The bottom tangent is valid in the walk from circle 0 to circle 1. -/
theorem rw2000_valid1 :
    validTangent eps2000 (fun p => lookupRadius psv2000 p) 0 1
      (0, -5000) (2000, -5000) := by
  intro u hu
  have hl : eps2000.length = 2 := rfl
  rw [hl] at hu
  have hu2 : u = 0 ∨ u = 1 := by omega
  rcases hu2 with rfl | rfl
  · constructor
    · show ¬ lis_4p_nonempty _ _ (eps2000.getD 0 (0, 0))
        (eps2000.getD (1 % eps2000.length) (0, 0))
      simp only [eps2000]
      exact lis_4p_horiz_not _ _ _ _ _ _ (by norm_num) (by norm_num)
    · intro h
      exact absurd rfl h
  · constructor
    · show ¬ lis_4p_nonempty _ _ (eps2000.getD 1 (0, 0))
        (eps2000.getD (2 % eps2000.length) (0, 0))
      simp only [eps2000]
      exact lis_4p_horiz_not _ _ _ _ _ _ (by norm_num) (by norm_num)
    · intro _ h
      exact absurd rfl h

/-- The top tangent is valid in the walk from circle 1 to circle 0. -/
theorem rw2000_valid2 :
    validTangent eps2000 (fun p => lookupRadius psv2000 p) 1 0
      (2000, 5000) (0, 5000) := by
  intro u hu
  have hl : eps2000.length = 2 := rfl
  rw [hl] at hu
  have hu2 : u = 0 ∨ u = 1 := by omega
  rcases hu2 with rfl | rfl
  · constructor
    · show ¬ lis_4p_nonempty _ _ (eps2000.getD 0 (0, 0))
        (eps2000.getD (1 % eps2000.length) (0, 0))
      simp only [eps2000]
      exact lis_4p_horiz_not _ _ _ _ _ _ (by norm_num) (by norm_num)
    · intro _ h
      exact absurd rfl h
  · constructor
    · show ¬ lis_4p_nonempty _ _ (eps2000.getD 1 (0, 0))
        (eps2000.getD (2 % eps2000.length) (0, 0))
      simp only [eps2000]
      exact lis_4p_horiz_not _ _ _ _ _ _ (by norm_num) (by norm_num)
    · intro h
      exact absurd rfl h

/-- First walk step: from circle 0, the search skips itself and accepts
the bottom tangent to circle 1. -/
theorem rw2000_ft0 :
    findTangent eps2000 (fun p => lookupRadius psv2000 p) 0 0 2 =
      some (1, ((0 : ℝ), (-5000 : ℝ)), ((2000 : ℝ), (-5000 : ℝ))) := by
  simp only [findTangent, eps2000, List.getD_cons_zero,
    List.getD_cons_succ, List.length_cons, List.length_nil, true_or,
    if_true, rad2000_a, rad2000_b]
  norm_num
  constructor
  · exact rw2000_not_cic
  · rw [show cet2cr (0 : Point2) 5000 ((2000 : ℝ), (0 : ℝ)) 5000 =
      [((0 : ℝ), (-5000 : ℝ)), (2000, -5000)] from rw2000_cetA]
    show (if validTangent [(0 : Point2), ((2000 : ℝ), (0 : ℝ))]
        (fun p => lookupRadius psv2000 p) 0 1 ((0 : ℝ), (-5000 : ℝ))
        ((2000 : ℝ), (-5000 : ℝ)) then
        some (1, ((0 : ℝ), (-5000 : ℝ)), ((2000 : ℝ), (-5000 : ℝ)))
      else none) = _
    rw [if_pos (show validTangent [(0 : Point2), ((2000 : ℝ), (0 : ℝ))]
      (fun p => lookupRadius psv2000 p) 0 1 ((0 : ℝ), (-5000 : ℝ))
      ((2000 : ℝ), (-5000 : ℝ)) from rw2000_valid1)]

/-- The stored radius of the first circle, zero-normalized form. -/
theorem rad2000_a0 : lookupRadius psv2000 0 = 5000 := rad2000_a

/-- Second walk step: from circle 1, the search skips itself and accepts
the top tangent back to circle 0. -/
theorem rw2000_ft1 :
    findTangent eps2000 (fun p => lookupRadius psv2000 p) 1 1 2 =
      some (0, ((2000 : ℝ), (5000 : ℝ)), ((0 : ℝ), (5000 : ℝ))) := by
  simp only [findTangent, eps2000, List.getD_cons_zero,
    List.getD_cons_succ, List.length_cons, List.length_nil, true_or,
    if_true, rad2000_a, rad2000_b]
  norm_num [rad2000_a0]
  constructor
  · exact rw2000_not_cic'
  · rw [show cet2cr ((2000 : ℝ), (0 : ℝ)) 5000 (0 : Point2) 5000 =
      [((2000 : ℝ), (5000 : ℝ)), (0, 5000)] from rw2000_cetB]
    show (if validTangent [(0 : Point2), ((2000 : ℝ), (0 : ℝ))]
        (fun p => lookupRadius psv2000 p) 1 0 ((2000 : ℝ), (5000 : ℝ))
        ((0 : ℝ), (5000 : ℝ)) then
        some (0, ((2000 : ℝ), (5000 : ℝ)), ((0 : ℝ), (5000 : ℝ)))
      else none) = _
    rw [if_pos (show validTangent [(0 : Point2), ((2000 : ℝ), (0 : ℝ))]
      (fun p => lookupRadius psv2000 p) 1 0 ((2000 : ℝ), (5000 : ℝ))
      ((0 : ℝ), (5000 : ℝ)) from rw2000_valid2)]

/-- The horizontal-surface outline the source computes for `rw2000`:
bottom tangent, arc around the far endpoint, top tangent, and the
closing element — which carries a center but is a plain `Edge`, so the
containment tests treat it as the straight segment from `(0, 5000)` to
`(0, -5000)`. -/
def hs2000 : List HEdge :=
  [HEdge.edge (0, -5000) (2000, -5000) none,
   HEdge.arc (2000, 0) 5000,
   HEdge.edge (2000, 5000) (0, 5000) none,
   HEdge.edge (0, 5000) (0, -5000) (some (0, 0))]

/-- The tangent walk around `rw2000`'s two circles. -/
theorem rw2000_hsWalk :
    hsWalk eps2000 (fun p => lookupRadius psv2000 p) =
      [HEdge.edge (0, -5000) (2000, -5000) none,
       HEdge.arc (2000, 0) 5000,
       HEdge.edge (2000, 5000) (0, 5000) none] := by
  have hd : calc_distance ((2000 : ℝ), (0 : ℝ)) (2000, 5000) = 5000 :=
    calc_distance_eval (by norm_num) (by norm_num)
  simp only [hsWalk, show eps2000.length = 2 from rfl,
    show List.range 2 = [0, 1] from rfl, List.foldl_cons, List.foldl_nil,
    rw2000_ft0, rw2000_ft1]
  simp [eps2000, hd]

/-- The horizontal-surface outline of the single runway `rw2000`. -/
theorem rw2000_hsurface :
    get_horizontal_surface_edges [rw2000] = .ok hs2000 := by
  unfold get_horizontal_surface_edges
  rw [if_neg (by simp)]
  rw [rw2000_buildPSV]
  simp only [except_bind_ok]
  rw [rw2000_sort, rw2000_hsWalk]
  simp [hs2000, eps2000]

/-! ## Orientation and polygon evaluation helpers -/

/-- `get_side_of_line` is `1` when the determinant is positive. -/
theorem get_side_of_line_pos {a b c : Point2}
    (h : 0 < (b.1 - a.1) * (c.2 - a.2) - (c.1 - a.1) * (b.2 - a.2)) :
    get_side_of_line a b c = 1 := by
  unfold get_side_of_line sign
  rw [if_pos h]

/-- `get_side_of_line` is `-1` when the determinant is negative. -/
theorem get_side_of_line_neg {a b c : Point2}
    (h : (b.1 - a.1) * (c.2 - a.2) - (c.1 - a.1) * (b.2 - a.2) < 0) :
    get_side_of_line a b c = -1 := by
  unfold get_side_of_line sign
  rw [if_neg (by linarith), if_pos h]

/-- `get_side_of_line` is `0` on the line. -/
theorem get_side_of_line_zero {a b c : Point2}
    (h : (b.1 - a.1) * (c.2 - a.2) - (c.1 - a.1) * (b.2 - a.2) = 0) :
    get_side_of_line a b c = 0 := by
  unfold get_side_of_line sign
  rw [if_neg (by linarith), if_neg (by linarith)]

/-- Membership in an (unforced) clockwise polygon from the edge
orientations. -/
theorem is_in_polygon_cw_intro {point : Point2} {vs : List Point2}
    (h3 : ¬ vs.length < 3) (hdir : get_polygon_direction vs = 1)
    (h : ∀ i < vs.length, get_side_of_line (vs.getD i (0, 0))
      (vs.getD ((i + 1) % vs.length) (0, 0)) point ≤ -1) :
    is_in_polygon point vs := by
  unfold is_in_polygon
  rw [if_neg h3]
  simp only [Bool.false_eq_true, if_false, hdir]
  norm_num
  intro i hi
  simpa using h i hi

/-- Non-membership in an (unforced) clockwise polygon from one failing
edge. -/
theorem is_in_polygon_cw_not {point : Point2} {vs : List Point2}
    (hdir : get_polygon_direction vs = 1) (i : ℕ) (hi : i < vs.length)
    (hside : ¬ get_side_of_line (vs.getD i (0, 0))
      (vs.getD ((i + 1) % vs.length) (0, 0)) point ≤ -1) :
    ¬ is_in_polygon point vs := by
  unfold is_in_polygon
  intro hmem
  rcases Nat.lt_or_ge vs.length 3 with h3 | h3
  · rw [if_pos h3] at hmem
    exact hmem
  · rw [if_neg (by omega)] at hmem
    simp only [Bool.false_eq_true, if_false, hdir] at hmem
    norm_num at hmem
    exact hside (by simpa using hmem i hi)

/-- Membership in a forced-counter-clockwise polygon from the edge
orientations. -/
theorem is_in_polygon_ccw_intro {point : Point2} {vs : List Point2}
    (h3 : ¬ vs.length < 3)
    (h : ∀ i < vs.length, get_side_of_line (vs.getD i (0, 0))
      (vs.getD ((i + 1) % vs.length) (0, 0)) point ≥ 1) :
    is_in_polygon point vs true false := by
  unfold is_in_polygon
  rw [if_neg h3]
  simp only [if_true]
  norm_num
  intro i hi
  simpa using h i hi

/-- Non-membership in a forced-counter-clockwise polygon from one
failing edge. -/
theorem is_in_polygon_ccw_not {point : Point2} {vs : List Point2}
    (i : ℕ) (hi : i < vs.length)
    (hside : ¬ get_side_of_line (vs.getD i (0, 0))
      (vs.getD ((i + 1) % vs.length) (0, 0)) point ≥ 1) :
    ¬ is_in_polygon point vs true false := by
  unfold is_in_polygon
  intro hmem
  rcases Nat.lt_or_ge vs.length 3 with h3 | h3
  · rw [if_pos h3] at hmem
    exact hmem
  · rw [if_neg (by omega)] at hmem
    simp only [if_true] at hmem
    norm_num at hmem
    exact hside (by simpa using hmem i hi)

/-! ## rw2000: per-runway surfaces -/

/-- The approach dimensions of `rw2000` (visual utility ends). -/
theorem rw2000_dims :
    rw2000.calc_approach_dimensions =
      ({ typ := ApproachTypes.visual
         width := some 1250
         length := some 5000
         slope := some 0.05 },
       { typ := ApproachTypes.visual
         width := some 1250
         length := some 5000
         slope := some 0.05 }) := by
  simp [rw2000, Runway.calc_approach_dimensions]

/-- The primary-surface vertices of `rw2000` (width 250 ft). -/
theorem rw2000_psurf :
    get_primary_surface_vertices rw2000 =
      .ok (some (((0, -125), (0, 125)), ((2000, 125), (2000, -125)))) := by
  have hw : rw2000.calc_psurface_width / 2 = 125 := by
    simp [rw2000, Runway.calc_psurface_width]
    norm_num
  simp only [get_primary_surface_vertices,
    show rw2000.special_surface = false from rfl,
    Bool.false_eq_true, if_false, except_bind_ok,
    show rw2000.end1.point = ((0 : ℝ), (0 : ℝ)) from rfl,
    show rw2000.end2.point = ((2000 : ℝ), (0 : ℝ)) from rfl, hw]
  rw [create_right_triangle_eval (l := 2000) (by norm_num) (by norm_num),
    create_right_triangle_eval (l := 2000) (by norm_num) (by norm_num)]
  norm_num

/-- The approach-surface footprints of `rw2000`. -/
def asurf2000 : ASurf :=
  ([(0, -125), (0, 125), (-5000, 625), (-5000, -625)],
   [(2000, 125), (2000, -125), (7000, -625), (7000, 625)])

/-- Evaluating `get_approach_surface_vertices` on `rw2000`. -/
theorem rw2000_asurf :
    get_approach_surface_vertices rw2000.calc_approach_dimensions
      (some (((0, -125), (0, 125)), ((2000, 125), (2000, -125)))) =
      .ok asurf2000 := by
  have e1 : extend_point_in_one_direction ((2000 : ℝ), (0 : ℝ)) (0, 0)
      5000 = some (-5000, 0) := by
    rw [extend_point_eval (l := 2000) (by norm_num) (by norm_num)]
    norm_num
  have t1 : create_right_triangle ((0 : ℝ), (0 : ℝ)) (-5000, 0) 625 =
      some ((-5000, -625), (-5000, 625)) := by
    rw [create_right_triangle_eval (l := 5000) (by norm_num) (by norm_num)]
    norm_num
  have e2 : extend_point_in_one_direction ((0 : ℝ), (0 : ℝ)) (2000, 0)
      5000 = some (7000, 0) := by
    rw [extend_point_eval (l := 2000) (by norm_num) (by norm_num)]
    norm_num
  have t2 : create_right_triangle ((2000 : ℝ), (0 : ℝ)) (7000, 0) 625 =
      some ((7000, 625), (7000, -625)) := by
    rw [create_right_triangle_eval (l := 5000) (by norm_num) (by norm_num)]
    norm_num
  have hne1 : (ApproachTypes.visual =
      ApproachTypes.precision_instrument) = False := by simp
  have ez : (0 : Point2) = ((0 : ℝ), (0 : ℝ)) := rfl
  rw [rw2000_dims]
  norm_num [get_approach_surface_vertices, getKey_some, getPair_some,
    except_bind_ok, hne1, e1, t1, e2, t2, asurf2000]
  rw [ez]
  simp only [e1, t1, e2, t2, getPair_some, except_bind_ok]

/-- The lateral offset of the transitional-surface strips,
`150 / (1/7) * sqrt 2 = 1050 * sqrt 2`. -/
def dT : ℝ := calc_dist_for_height (1 / 7) 150

/-- `dT` in closed form. -/
theorem dT_eq : dT = 1050 * Real.sqrt 2 := by
  unfold dT calc_dist_for_height
  rw [if_neg (by norm_num)]
  norm_num

/-- `dT` is positive. -/
theorem dT_pos : 0 < dT := by
  rw [dT_eq]
  positivity

/-- The transitional-surface strips of `rw2000`. -/
def ts2000 : List Point2 × List Point2 :=
  ([(0, -125), (-5000, -625), (0, -125 - dT), (2000, -125 - dT),
    (7000, -625), (2000, -125)],
   [(2000, 125), (7000, 625), (2000, 125 + dT), (0, 125 + dT),
    (-5000, 625), (0, 125)])

/-- Evaluating `get_transitional_surface_vertices` on `rw2000`. -/
theorem rw2000_tsurf :
    get_transitional_surface_vertices
      (some (((0, -125), (0, 125)), ((2000, 125), (2000, -125))))
      asurf2000 = .ok ts2000 := by
  have x1 : extend_point_in_one_direction ((0 : ℝ), (125 : ℝ)) (0, -125)
      dT = some (0, -125 - dT) := by
    rw [extend_point_eval (l := 250) (by norm_num) (by norm_num)]
    have : (dT / 250 + 1) * ((-125 : ℝ) - 125) + 125 = -125 - dT := by
      ring
    rw [this]
    norm_num
  have x2 : extend_point_in_one_direction ((0 : ℝ), (-125 : ℝ)) (0, 125)
      dT = some (0, 125 + dT) := by
    rw [extend_point_eval (l := 250) (by norm_num) (by norm_num)]
    have : (dT / 250 + 1) * ((125 : ℝ) - -125) + -125 = 125 + dT := by
      ring
    rw [this]
    norm_num
  have x3 : extend_point_in_one_direction ((2000 : ℝ), (-125 : ℝ))
      (2000, 125) dT = some (2000, 125 + dT) := by
    rw [extend_point_eval (l := 250) (by norm_num) (by norm_num)]
    have : (dT / 250 + 1) * ((125 : ℝ) - -125) + -125 = 125 + dT := by
      ring
    rw [this]
    norm_num
  have x4 : extend_point_in_one_direction ((2000 : ℝ), (125 : ℝ))
      (2000, -125) dT = some (2000, -125 - dT) := by
    rw [extend_point_eval (l := 250) (by norm_num) (by norm_num)]
    have : (dT / 250 + 1) * ((-125 : ℝ) - 125) + 125 = -125 - dT := by
      ring
    rw [this]
    norm_num
  simp only [get_transitional_surface_vertices,
    extend_points_in_both_directions, show calc_dist_for_height
      ((1 : ℝ) / 7) 150 = dT from rfl, x1, x2, x3, x4, getPair_some,
    except_bind_ok, ts2000, asurf2000]
  norm_num

/-! ## C1: a point inside the primary surface -/

/-- The flattened primary-surface polygon of `rw2000`. -/
def pv2000 : List Point2 := [(0, -125), (0, 125), (2000, 125), (2000, -125)]

/-- `pv2000` is wound clockwise. -/
theorem pv2000_dir : get_polygon_direction pv2000 = 1 := by
  unfold get_polygon_direction sign
  rw [show pv2000.length = 4 from rfl, show List.range 4 = [0, 1, 2, 3]
    from rfl]
  norm_num [pv2000]

/-- `(1000, 0)` (on the runway centerline) is inside `pv2000`. -/
theorem pv2000_mem : is_in_polygon ((1000 : ℝ), (0 : ℝ)) pv2000 := by
  apply is_in_polygon_cw_intro (by norm_num [pv2000]) pv2000_dir
  intro i hi
  rw [show pv2000.length = 4 from rfl] at hi ⊢
  interval_cases i <;>
    norm_num [pv2000] <;>
    exact le_of_eq (get_side_of_line_neg (by norm_num))

/-- `(1000, 0)` is inside the horizontal-surface outline `hs2000`. -/
theorem hs2000_in_centerline :
    is_in_horizontal_surface ((1000 : ℝ), (0 : ℝ)) hs2000 := by
  intro e he
  simp only [hs2000, List.mem_cons, List.not_mem_nil, or_false] at he
  rcases he with rfl | rfl | rfl | rfl
  · show get_side_of_line _ _ _ ≥ 1
    rw [get_side_of_line_pos (by norm_num)]
  · show is_in_circle _ _ _
    unfold is_in_circle
    rw [calc_distance_eval (c := 1000) (by norm_num) (by norm_num)]
    norm_num
  · show get_side_of_line _ _ _ ≥ 1
    rw [get_side_of_line_pos (by norm_num)]
  · show get_side_of_line _ _ _ ≥ 1
    rw [get_side_of_line_pos (by norm_num)]

/-- C1: for the spec's example geometry — runway `rw2000`, EAE 600 ft,
query `(1000, 0, 600)` strictly inside the primary-surface footprint —
`get_zone_information` does not return `zone=Primary` with
`build_limit=EAE`: it raises `AttributeError`, because recording the
result executes `info["runway"] = runway.name` and `Runway.__init__`
never defines `name`. -/
theorem primary_point_raises_attribute_error :
    get_zone_information ((1000 : ℝ), (0 : ℝ), (600 : ℝ)) [rw2000] 600 =
      .error .attributeError := by
  unfold get_zone_information
  rw [rw2000_hsurface]
  simp only [except_bind_ok]
  unfold zoneStart
  rw [if_pos (show is_in_horizontal_surface
    (t2d ((1000 : ℝ), (0 : ℝ), (600 : ℝ))) hs2000 from
    hs2000_in_centerline)]
  simp only [except_bind_ok]
  simp only [zoneLoopR]
  rw [rw2000_psurf]
  simp only [except_bind_ok]
  rw [rw2000_asurf]
  simp only [except_bind_ok]
  rw [rw2000_tsurf]
  simp only [except_bind_ok]
  rw [if_pos (show is_in_horizontal_surface
    (t2d ((1000 : ℝ), (0 : ℝ), (600 : ℝ))) hs2000 from
    hs2000_in_centerline)]
  rw [if_pos (show is_in_polygon
    (t2d ((1000 : ℝ), (0 : ℝ), (600 : ℝ)))
    (psurfFlatten (some (((0, -125), (0, 125)),
      ((2000, 125), (2000, -125))))) from pv2000_mem)]

/-! ## C3: a point under both the horizontal surface and an approach
surface -/

/-- `(3000, 0)` is inside the horizontal-surface outline. -/
theorem hs2000_in_3000 :
    is_in_horizontal_surface ((3000 : ℝ), (0 : ℝ)) hs2000 := by
  intro e he
  simp only [hs2000, List.mem_cons, List.not_mem_nil, or_false] at he
  rcases he with rfl | rfl | rfl | rfl
  · show get_side_of_line _ _ _ ≥ 1
    rw [get_side_of_line_pos (by norm_num)]
  · show is_in_circle _ _ _
    unfold is_in_circle
    rw [calc_distance_eval (c := 1000) (by norm_num) (by norm_num)]
    norm_num
  · show get_side_of_line _ _ _ ≥ 1
    rw [get_side_of_line_pos (by norm_num)]
  · show get_side_of_line _ _ _ ≥ 1
    rw [get_side_of_line_pos (by norm_num)]

/-- `(3000, 0)` is outside the primary-surface polygon. -/
theorem pv2000_not_mem_3000 :
    ¬ is_in_polygon ((3000 : ℝ), (0 : ℝ)) pv2000 := by
  apply is_in_polygon_cw_not pv2000_dir 2 (by norm_num [pv2000])
  norm_num [pv2000]
  rw [get_side_of_line_pos (by norm_num)]
  norm_num

/-- `(3000, 0, 600)` is in neither transitional strip of `rw2000`. -/
theorem ts2000_none_3000 :
    transCand ((3000 : ℝ), (0 : ℝ), (600 : ℝ)) 600 ts2000.1 = none ∧
    transCand ((3000 : ℝ), (0 : ℝ), (600 : ℝ)) 600 ts2000.2 = none := by
  constructor
  · unfold transCand is_in_transitional_surface
    rw [if_neg]
    · rfl
    · rintro ⟨hp, -⟩
      refine is_in_polygon_ccw_not 4 (by norm_num [ts2000]) ?_ hp
      norm_num [ts2000, t2d]
      rw [get_side_of_line_neg (by norm_num)]
      norm_num
  · unfold transCand is_in_transitional_surface
    rw [if_neg]
    · rfl
    · rintro ⟨hp, -⟩
      refine is_in_polygon_ccw_not 5 (by norm_num [ts2000]) ?_ hp
      norm_num [ts2000, t2d]
      rw [get_side_of_line_neg (by norm_num)]
      norm_num

/-- At `(3000, 0, 600)`, `end1`'s approach surface does not apply. -/
theorem rw2000_app1_3000 :
    approachCand ((3000 : ℝ), (0 : ℝ), (600 : ℝ)) 600 asurf2000.1
      { typ := ApproachTypes.visual
        width := some 1250
        length := some 5000
        slope := some 0.05 } = .ok none := by
  unfold approachCand is_in_approach_surface
  rw [if_neg (by simp)]
  simp only [getKey_some, except_bind_ok]
  rw [if_neg]
  · rfl
  · rintro ⟨hp, -⟩
    refine is_in_polygon_ccw_not 0 (by norm_num [asurf2000]) ?_ hp
    norm_num [asurf2000, t2d]
    rw [get_side_of_line_neg (by norm_num)]
    norm_num

/-- `(3000, 0)` is inside `end2`'s approach footprint. -/
theorem as2_mem_3000 :
    is_in_polygon ((3000 : ℝ), (0 : ℝ)) asurf2000.2 true false := by
  apply is_in_polygon_ccw_intro (by norm_num [asurf2000])
  intro i hi
  rw [show asurf2000.2.length = 4 from rfl] at hi
  interval_cases i <;>
    norm_num [asurf2000] <;>
    exact le_of_eq (get_side_of_line_pos (by norm_num)).symm

/-- At `(3000, 0, 600)`, `end2`'s approach surface applies and its
plane proposes the build limit 650. -/
theorem rw2000_app2_3000 :
    approachCand ((3000 : ℝ), (0 : ℝ), (600 : ℝ)) 600 asurf2000.2
      { typ := ApproachTypes.visual
        width := some 1250
        length := some 5000
        slope := some 0.05 } = .ok (some 650) := by
  have hplane : get_plane ((2000 : ℝ), (125 : ℝ), (600 : ℝ))
      ((2000 : ℝ), (-125 : ℝ), (600 : ℝ))
      ((7000 : ℝ), (625 : ℝ), (600 + 0.05 * 5000 : ℝ)) 3000 0 = 650 := by
    unfold get_plane cross
    norm_num
  unfold approachCand is_in_approach_surface
  rw [if_neg (by simp)]
  simp only [getKey_some, except_bind_ok]
  rw [if_pos]
  · show Except.ok (some (get_plane ((2000 : ℝ), (125 : ℝ), (600 : ℝ))
      ((2000 : ℝ), (-125 : ℝ), (600 : ℝ))
      ((7000 : ℝ), (625 : ℝ), (600 + 0.05 * 5000 : ℝ)) 3000 0)) = _
    rw [hplane]
  · constructor
    · exact as2_mem_3000
    · show (600 : ℝ) ≤ get_plane ((2000 : ℝ), (125 : ℝ), (600 : ℝ))
        ((2000 : ℝ), (-125 : ℝ), (600 : ℝ))
        ((7000 : ℝ), (625 : ℝ), (600 + 0.05 * 5000 : ℝ)) 3000 0
      rw [hplane]
      norm_num

/-! ## Site reduction lemmas -/

/-- A site with no applicable surface leaves the state unchanged. -/
theorem siteR_none (s : ℝ × ZoneInfo) : siteR (pure none) s = .ok s := rfl

/-- A site whose proposal does not beat the current limit leaves the
state unchanged. -/
theorem siteR_le {z : ℝ} (s : ℝ × ZoneInfo) (h : ¬ z > s.1) :
    siteR (.ok (some z)) s = .ok s := by
  unfold siteR
  show (if z > s.1 then _ else _) = _
  rw [if_neg h]

/-- A site whose proposal beats the current limit raises
`AttributeError` in the source. -/
theorem siteR_gt {z : ℝ} (s : ℝ × ZoneInfo) (h : z > s.1) :
    siteR (.ok (some z)) s = .error .attributeError := by
  unfold siteR
  show (if z > s.1 then _ else _) = _
  rw [if_pos h]

/-- Classification counterpart of `siteR_none`. -/
theorem siteT_none (upd : ℝ → ZoneInfo → ZoneInfo) (s : ℝ × ZoneInfo) :
    siteT upd (pure none) s = .ok s := rfl

/-- Classification counterpart of `siteR_le`. -/
theorem siteT_le (upd : ℝ → ZoneInfo → ZoneInfo) {z : ℝ}
    (s : ℝ × ZoneInfo) (h : ¬ z > s.1) :
    siteT upd (.ok (some z)) s = .ok s := by
  unfold siteT
  show (if z > s.1 then _ else _) = _
  rw [if_neg h]

/-- Classification counterpart of `siteR_gt`: the record succeeds. -/
theorem siteT_gt (upd : ℝ → ZoneInfo → ZoneInfo) {z : ℝ}
    (s : ℝ × ZoneInfo) (h : z > s.1) :
    siteT upd (.ok (some z)) s = .ok (z, upd z s.2) := by
  unfold siteT
  show (if z > s.1 then _ else _) = _
  rw [if_pos h]

/-- C3 counterexample: at `(3000, 0, 600)` with EAE 600, two
non-primary surfaces apply — the horizontal surface (limit 600) and
`end2`'s approach surface (plane height 650).  The most restrictive
build limit is 600, but `get_zone_information` does not return it: the
less restrictive approach proposal 650 beats the threaded limit 600, so
the source overwrites and raises `AttributeError` at
`info["runway"] = runway.name`. -/
theorem competing_surfaces_raise_attribute_error :
    get_zone_information ((3000 : ℝ), (0 : ℝ), (600 : ℝ)) [rw2000] 600 =
      .error .attributeError := by
  unfold get_zone_information
  rw [rw2000_hsurface]
  simp only [except_bind_ok]
  unfold zoneStart
  rw [if_pos (show is_in_horizontal_surface
    (t2d ((3000 : ℝ), (0 : ℝ), (600 : ℝ))) hs2000 from hs2000_in_3000)]
  simp only [except_bind_ok]
  simp only [zoneLoopR]
  rw [rw2000_psurf]
  simp only [except_bind_ok]
  rw [rw2000_asurf]
  simp only [except_bind_ok]
  rw [rw2000_tsurf]
  simp only [except_bind_ok]
  rw [if_pos (show is_in_horizontal_surface
    (t2d ((3000 : ℝ), (0 : ℝ), (600 : ℝ))) hs2000 from hs2000_in_3000)]
  rw [if_neg (show ¬ is_in_polygon
    (t2d ((3000 : ℝ), (0 : ℝ), (600 : ℝ)))
    (psurfFlatten (some (((0, -125), (0, 125)),
      ((2000, 125), (2000, -125))))) from pv2000_not_mem_3000)]
  rw [rw2000_dims]
  simp only [ts2000_none_3000.1, ts2000_none_3000.2, siteR_none,
    except_bind_ok]
  rw [rw2000_app1_3000]
  rw [show siteR (.ok none) ((600 : ℝ),
    ⟨Zone.horizontal, some 600, false, false⟩) = .ok ((600 : ℝ),
    ⟨Zone.horizontal, some 600, false, false⟩) from rfl]
  simp only [except_bind_ok]
  rw [rw2000_app2_3000]
  rw [siteR_gt _ (by norm_num)]
  rfl

/-- The classification at `(3000, 0, 600)`: zone Approach with the
higher limit 650 recorded. -/
theorem rw2000_trace_3000 :
    get_zone_classification ((3000 : ℝ), (0 : ℝ), (600 : ℝ)) [rw2000]
      600 = .ok ⟨Zone.approach, some 650, true, true⟩ := by
  unfold get_zone_classification
  rw [rw2000_hsurface]
  simp only [except_bind_ok]
  unfold zoneStart
  rw [if_pos (show is_in_horizontal_surface
    (t2d ((3000 : ℝ), (0 : ℝ), (600 : ℝ))) hs2000 from hs2000_in_3000)]
  simp only [except_bind_ok]
  simp only [zoneLoopT]
  rw [rw2000_psurf]
  simp only [except_bind_ok]
  rw [rw2000_asurf]
  simp only [except_bind_ok]
  rw [rw2000_tsurf]
  simp only [except_bind_ok]
  rw [if_pos (show is_in_horizontal_surface
    (t2d ((3000 : ℝ), (0 : ℝ), (600 : ℝ))) hs2000 from hs2000_in_3000)]
  rw [if_neg (show ¬ is_in_polygon
    (t2d ((3000 : ℝ), (0 : ℝ), (600 : ℝ)))
    (psurfFlatten (some (((0, -125), (0, 125)),
      ((2000, 125), (2000, -125))))) from pv2000_not_mem_3000)]
  rw [rw2000_dims]
  simp only [ts2000_none_3000.1, ts2000_none_3000.2, siteT_none,
    except_bind_ok]
  rw [rw2000_app1_3000]
  rw [show siteT approachUpd (.ok none) ((600 : ℝ),
    ⟨Zone.horizontal, some 600, false, false⟩) = .ok ((600 : ℝ),
    ⟨Zone.horizontal, some 600, false, false⟩) from rfl]
  simp only [except_bind_ok]
  rw [rw2000_app2_3000]
  rw [siteT_gt _ _ (by norm_num)]
  rfl

/-- The applicable-surface proposals at `(3000, 0, 600)`. -/
theorem rw2000_proposals_3000 :
    surfaceProposals ((3000 : ℝ), (0 : ℝ), (600 : ℝ)) [rw2000] 600 =
      .ok [650] := by
  unfold surfaceProposals
  rw [rw2000_hsurface]
  simp only [except_bind_ok]
  simp only [runwayProposalsLoop]
  rw [rw2000_psurf]
  simp only [except_bind_ok]
  rw [rw2000_asurf]
  simp only [except_bind_ok]
  rw [rw2000_tsurf]
  simp only [except_bind_ok]
  rw [rw2000_dims]
  rw [rw2000_app1_3000]
  simp only [except_bind_ok]
  rw [rw2000_app2_3000]
  simp only [except_bind_ok]
  rw [if_pos (show is_in_horizontal_surface
    (t2d ((3000 : ℝ), (0 : ℝ), (600 : ℝ))) hs2000 from hs2000_in_3000)]
  simp only [ts2000_none_3000.1, ts2000_none_3000.2, Option.toList]
  rfl

/-- The initial build limit at `(3000, 0, 600)` is the EAE. -/
theorem rw2000_init_3000 :
    initialBuildLimit ((3000 : ℝ), (0 : ℝ), (600 : ℝ)) [rw2000] 600 =
      .ok 600 := by
  unfold initialBuildLimit
  rw [rw2000_hsurface]
  simp only [except_bind_ok]
  unfold zoneStart
  rw [if_pos (show is_in_horizontal_surface
    (t2d ((3000 : ℝ), (0 : ℝ), (600 : ℝ))) hs2000 from hs2000_in_3000)]
  rfl

/-! ## C8: a boundary point of the horizontal surface -/

/-- A visual-approach candidate is inapplicable wherever the footprint
test fails (independently of the query height). -/
theorem appcand_none_of_not_mem (p : Point3) (eae : ℝ)
    (asurface : List Point2)
    (h : ¬ is_in_polygon (t2d p) asurface true false) :
    approachCand p eae asurface
      { typ := ApproachTypes.visual
        width := some 1250
        length := some 5000
        slope := some 0.05 } = .ok none := by
  unfold approachCand is_in_approach_surface
  rw [if_neg (by simp)]
  simp only [getKey_some, except_bind_ok]
  rw [if_neg (fun hc => h hc.1)]
  rfl

/-- The boundary point `(2000, 5000)` — exactly the horizontal-surface
radius from the endpoint `(2000, 0)`, perpendicular to the runway — is
*not* inside the source's horizontal surface: the strict side test of
the top tangent edge rejects collinear points. -/
theorem hs2000_not_in_boundary :
    ¬ is_in_horizontal_surface ((2000 : ℝ), (5000 : ℝ)) hs2000 := by
  intro h
  have h2 : get_side_of_line ((2000 : ℝ), (5000 : ℝ)) (2000, 5000)
      (0, 5000) ≥ 1 :=
    h (HEdge.edge (2000, 5000) (0, 5000) none) (by simp [hs2000])
  rw [get_side_of_line_zero (by norm_num)] at h2
  norm_num at h2

/-- `(2000, 5000)` is outside both approach footprints. -/
theorem asurf2000_not_mem_boundary :
    ¬ is_in_polygon ((2000 : ℝ), (5000 : ℝ)) asurf2000.1 true false ∧
    ¬ is_in_polygon ((2000 : ℝ), (5000 : ℝ)) asurf2000.2 true false := by
  constructor
  · apply is_in_polygon_ccw_not 0 (by norm_num [asurf2000])
    norm_num [asurf2000]
    rw [get_side_of_line_neg (by norm_num)]
    norm_num
  · apply is_in_polygon_ccw_not 0 (by norm_num [asurf2000])
    norm_num [asurf2000]
    rw [get_side_of_line_zero (by norm_num)]
    norm_num

/-- C8: the boundary query `(2000, 5000, 600)` with EAE 600 — exactly
`calc_hsurface_radius = 5000` ft from the endpoint `(2000, 0)`,
perpendicular to the centerline — is classified `N/A` (with no build
limit), not Horizontal: `is_in_horizontal_surface` excludes its own
boundary despite its docstring, the conical gate rejects the point
(`600 < EAE + 150`), and no approach surface applies. -/
theorem boundary_point_is_na :
    get_zone_information ((2000 : ℝ), (5000 : ℝ), (600 : ℝ)) [rw2000]
      600 = .ok ⟨Zone.na, none, false, false⟩ := by
  unfold get_zone_information
  rw [rw2000_hsurface]
  simp only [except_bind_ok]
  unfold zoneStart
  rw [if_neg (show ¬ is_in_horizontal_surface
    (t2d ((2000 : ℝ), (5000 : ℝ), (600 : ℝ))) hs2000 from
    hs2000_not_in_boundary)]
  rw [show is_in_conical_surface ((2000 : ℝ), (5000 : ℝ), (600 : ℝ))
      hs2000 600 = .ok none from by
    unfold is_in_conical_surface
    rw [if_pos (by norm_num)]]
  simp only [except_bind_ok]
  simp only [zoneLoopR]
  rw [rw2000_psurf]
  simp only [except_bind_ok]
  rw [rw2000_asurf]
  simp only [except_bind_ok]
  rw [rw2000_tsurf]
  simp only [except_bind_ok]
  rw [if_neg (show ¬ is_in_horizontal_surface
    (t2d ((2000 : ℝ), (5000 : ℝ), (600 : ℝ))) hs2000 from
    hs2000_not_in_boundary)]
  rw [rw2000_dims]
  rw [appcand_none_of_not_mem ((2000 : ℝ), (5000 : ℝ), (600 : ℝ)) 600
    asurf2000.1 asurf2000_not_mem_boundary.1]
  simp only [except_bind_ok]
  rw [appcand_none_of_not_mem ((2000 : ℝ), (5000 : ℝ), (600 : ℝ)) 600
    asurf2000.2 asurf2000_not_mem_boundary.2]
  rw [show siteR (.ok none) ((600 : ℝ),
    ⟨Zone.na, none, false, false⟩) = .ok ((600 : ℝ),
    ⟨Zone.na, none, false, false⟩) from rfl]
  simp only [except_bind_ok]
  rw [show siteR (.ok none) ((600 : ℝ),
    ⟨Zone.na, none, false, false⟩) = .ok ((600 : ℝ),
    ⟨Zone.na, none, false, false⟩) from rfl]
  rfl

/-! ## C9: the conical wedge over the top tangent edge -/

/-- The wedge plane the source builds over the top tangent edge,
evaluated in closed form: it rises with `y` away from the outline —
the interior-side third vertex `(0, 1000)` and the sign error in
`cross` cancel. -/
theorem top_wedge_plane_eval (x y : ℝ) :
    get_plane ((2000 : ℝ), (5000 : ℝ), (750 : ℝ))
      ((0 : ℝ), (5000 : ℝ), (750 : ℝ))
      ((0 : ℝ), (1000 : ℝ), (950 : ℝ)) x y = 750 + (y - 5000) / 20 := by
  unfold get_plane cross
  norm_num
  ring

/-- The arc of `hs2000` rejects every query with `x = 1000`: its flat
lower cone sits at height 750 while the upper cone is strictly above
750 there. -/
theorem arc_skip_x1000 (y z : ℝ) :
    ¬ (get_cone (t3d ((2000 : ℝ), (0 : ℝ)) (600 + 150)) (5000 + 4000)
        (600 + 350) 1000 y ≤ z ∧
      z ≤ get_cone (t3d ((2000 : ℝ), (0 : ℝ)) (600 + 150)) 5000
        (600 + 150) 1000 y) := by
  rintro ⟨h1, h2⟩
  unfold get_cone at h1 h2
  simp only [t3d] at h1 h2
  simp only [if_true] at h2
  rw [if_neg (by norm_num)] at h1
  have hs : 0 < Real.sqrt ((1000 - 2000 : ℝ) ^ 2 + (y - 0) ^ 2) := by
    apply Real.sqrt_pos.mpr
    nlinarith [sq_nonneg (y - 0)]
  have hden : (0 : ℝ) < (5000 + 4000) / (600 + 350 - (600 + 150)) := by
    norm_num
  have := div_pos hs hden
  linarith

/-- The top-edge wedge plane evaluated along the outward perpendicular
at `x = 1000`. -/
theorem top_wedge_at (δ : ℝ) :
    get_plane (t3d ((2000 : ℝ), (5000 : ℝ)) (600 + 150))
      (t3d ((0 : ℝ), (5000 : ℝ)) (600 + 150))
      (t3d ((0 : ℝ), (1000 : ℝ)) (600 + 350)) 1000 (5000 + δ) =
      750 + δ / 20 := by
  simp only [t3d]
  norm_num [top_wedge_plane_eval]

/-- `pure` on `Except` is `.ok`. -/
theorem pure_ok {α : Type} (x : α) :
    (pure x : Except PyErr α) = Except.ok x := rfl

/-- A failing candidate propagates through a record site. -/
theorem siteT_err (upd : ℝ → ZoneInfo → ZoneInfo) (e : PyErr)
    (s : ℝ × ZoneInfo) : siteT upd (.error e) s = .error e := rfl

/-- One record site folds its proposal into the running maximum and
keeps the build limit of the info dict either absent or equal to the
threaded limit (for updates that write the proposal into the dict). -/
theorem siteT_foldl (upd : ℝ → ZoneInfo → ZoneInfo)
    (hupd : ∀ z i, (upd z i).build_limit = some z)
    (o : Option ℝ) (s : ℝ × ZoneInfo)
    (hinv : s.2.build_limit = none ∨ s.2.build_limit = some s.1) :
    ∃ s' : ℝ × ZoneInfo, siteT upd (.ok o) s = .ok s' ∧
      s'.1 = o.toList.foldl max s.1 ∧
      (s'.2.build_limit = none ∨ s'.2.build_limit = some s'.1) := by
  cases o with
  | none => exact ⟨s, rfl, rfl, hinv⟩
  | some z =>
      rcases le_or_lt z s.1 with h | h
      · refine ⟨s, siteT_le upd s (not_lt.mpr h), ?_, hinv⟩
        simp [Option.toList, max_eq_left h]
      · refine ⟨(z, upd z s.2), siteT_gt upd s h,
          ?_, Or.inr (hupd z s.2)⟩
        simp [Option.toList, max_eq_right (le_of_lt h)]

/-- The state `zoneStart` produces: a pre-loop zone, and a build limit
that is either absent (`N/A`) or synchronized with the threaded
limit. -/
theorem zoneStart_props (pos : Point3) (hs : List HEdge) (eae : ℝ)
    (s : ℝ × ZoneInfo) (h : zoneStart pos hs eae = .ok s) :
    (s.2.zone = Zone.na ∨ s.2.zone = Zone.horizontal ∨
      s.2.zone = Zone.conical) ∧
    (s.2.build_limit = none ∨ s.2.build_limit = some s.1) := by
  unfold zoneStart at h
  by_cases hin : is_in_horizontal_surface (t2d pos) hs
  · rw [if_pos hin] at h
    cases h
    exact ⟨Or.inr (Or.inl rfl), Or.inr rfl⟩
  · rw [if_neg hin] at h
    cases hc : is_in_conical_surface pos hs eae with
    | error e =>
        rw [hc] at h
        exact absurd h (by simp [except_bind_err])
    | ok o =>
        rw [hc] at h
        simp only [except_bind_ok] at h
        cases o with
        | none =>
            cases h
            exact ⟨Or.inl rfl, Or.inl rfl⟩
        | some f =>
            cases h
            exact ⟨Or.inr (Or.inr rfl), Or.inr rfl⟩

/-- The loop of the classification threads exactly the running maximum
of the applicable surfaces' proposals, and keeps the recorded build
limit (when present) synchronized with it. -/
theorem zoneLoopT_foldl (pos : Point3) (eae : ℝ) (in_h : Prop)
    (rws : List Runway) :
    ∀ (bl : ℝ) (info info' : ZoneInfo) (ps : List ℝ),
    zoneLoopT pos eae in_h rws bl info = .ok info' →
    runwayProposalsLoop pos eae in_h rws = .ok ps →
    (info.build_limit = none ∨ info.build_limit = some bl) →
    info'.zone ≠ Zone.primary →
    (info'.build_limit = none ∨
      info'.build_limit = some (ps.foldl max bl)) := by
  induction rws with
  | nil =>
      intro bl info info' ps h hp hinv hnp
      simp only [zoneLoopT] at h
      simp only [runwayProposalsLoop] at hp
      injection h with h
      injection hp with hp
      subst h
      subst hp
      simpa using hinv
  | cons rw rest ih =>
      intro bl info info' ps h hp hinv hnp
      simp only [zoneLoopT] at h
      simp only [runwayProposalsLoop] at hp
      cases hps : get_primary_surface_vertices rw with
      | error e =>
          rw [hps] at h
          simp only [except_bind_err] at h
          exact Except.noConfusion h
      | ok psv =>
          rw [hps] at h hp
          simp only [except_bind_ok] at h hp
          cases has : get_approach_surface_vertices
              rw.calc_approach_dimensions psv with
          | error e =>
              rw [has] at h
              simp only [except_bind_err] at h
              exact Except.noConfusion h
          | ok asv =>
              rw [has] at h hp
              simp only [except_bind_ok] at h hp
              cases hts : get_transitional_surface_vertices psv asv with
              | error e =>
                  rw [hts] at h
                  simp only [except_bind_err] at h
                  exact Except.noConfusion h
              | ok tsv =>
                  rw [hts] at h hp
                  simp only [except_bind_ok] at h hp
                  cases ha1 : approachCand pos eae asv.1
                      rw.calc_approach_dimensions.1 with
                  | error e =>
                      rw [ha1] at hp
                      simp only [except_bind_err] at hp
                      exact Except.noConfusion hp
                  | ok o3 =>
                      rw [ha1] at h hp
                      simp only [except_bind_ok] at hp
                      cases ha2 : approachCand pos eae asv.2
                          rw.calc_approach_dimensions.2 with
                      | error e =>
                          rw [ha2] at hp
                          simp only [except_bind_err] at hp
                          exact Except.noConfusion hp
                      | ok o4 =>
                          rw [ha2] at h hp
                          simp only [except_bind_ok] at hp
                          cases hrest : runwayProposalsLoop pos eae in_h
                              rest with
                          | error e =>
                              rw [hrest] at hp
                              simp only [except_bind_err] at hp
                              exact Except.noConfusion hp
                          | ok restP =>
                              rw [hrest] at hp
                              simp only [except_bind_ok] at hp
                              injection hp with hp
                              subst hp
                              by_cases hin : in_h
                              · rw [if_pos hin] at h ⊢
                                by_cases hpoly : is_in_polygon (t2d pos)
                                    (psurfFlatten psv)
                                · rw [if_pos hpoly] at h
                                  injection h with h
                                  subst h
                                  exact absurd rfl hnp
                                · rw [if_neg hpoly] at h
                                  simp only [pure_ok] at h
                                  obtain ⟨s1, e1, f1, i1⟩ :=
                                    siteT_foldl transUpd (fun z i => rfl)
                                      (transCand pos eae tsv.1) (bl, info)
                                      hinv
                                  rw [e1] at h
                                  simp only [except_bind_ok] at h
                                  obtain ⟨s2, e2, f2, i2⟩ :=
                                    siteT_foldl transUpd (fun z i => rfl)
                                      (transCand pos eae tsv.2) s1 i1
                                  rw [e2] at h
                                  simp only [except_bind_ok] at h
                                  obtain ⟨s3, e3, f3, i3⟩ :=
                                    siteT_foldl approachUpd
                                      (fun z i => rfl) o3 s2 i2
                                  rw [e3] at h
                                  simp only [except_bind_ok] at h
                                  obtain ⟨s4, e4, f4, i4⟩ :=
                                    siteT_foldl approachUpd
                                      (fun z i => rfl) o4 s3 i3
                                  rw [e4] at h
                                  simp only [except_bind_ok] at h
                                  rcases ih s4.1 s4.2 info' restP h hrest
                                      i4 hnp with hn | hs
                                  · exact Or.inl hn
                                  · refine Or.inr ?_
                                    rw [hs]
                                    congr 1
                                    rw [List.foldl_append]
                                    congr 1
                                    rw [f4, f3, f2, f1]
                                    simp [List.foldl_append]
                              · rw [if_neg hin] at h ⊢
                                obtain ⟨s3, e3, f3, i3⟩ :=
                                  siteT_foldl approachUpd
                                    (fun z i => rfl) o3 (bl, info) hinv
                                rw [e3] at h
                                simp only [except_bind_ok] at h
                                obtain ⟨s4, e4, f4, i4⟩ :=
                                  siteT_foldl approachUpd
                                    (fun z i => rfl) o4 s3 i3
                                rw [e4] at h
                                simp only [except_bind_ok] at h
                                rcases ih s4.1 s4.2 info' restP h hrest
                                    i4 hnp with hn | hs
                                · exact Or.inl hn
                                · refine Or.inr ?_
                                  rw [hs]
                                  congr 1
                                  rw [List.foldl_append]
                                  congr 1
                                  rw [f4, f3]
                                  simp [List.foldl_append]

/-- C3 (amended): when several non-Primary surfaces apply, the
classification keeps the *highest* applicable build limit, not the
lowest: whenever the classification terminates normally (the source
itself raises `AttributeError` at every overwrite, see
`competing_surfaces_raise_attribute_error`) and the zone is not
Primary, the recorded build limit — when one is recorded at all — is
the maximum of all surface proposals folded over the starting limit of
the horizontal/conical stage, because an overwrite happens exactly
when a proposal strictly exceeds the running limit. -/
theorem zone_build_limit_is_max (pos : Point3) (rws : List Runway)
    (eae : ℝ) (info : ZoneInfo) (ps : List ℝ) (b0 : ℝ)
    (ht : get_zone_classification pos rws eae = .ok info)
    (hnp : info.zone ≠ Zone.primary)
    (hp : surfaceProposals pos rws eae = .ok ps)
    (hb : initialBuildLimit pos rws eae = .ok b0) :
    info.build_limit = none ∨ info.build_limit = some (ps.foldl max b0) := by
  unfold get_zone_classification at ht
  unfold surfaceProposals at hp
  unfold initialBuildLimit at hb
  cases hhs : get_horizontal_surface_edges rws with
  | error e =>
      rw [hhs] at ht
      simp only [except_bind_err] at ht
      exact Except.noConfusion ht
  | ok hs =>
      rw [hhs] at ht hp hb
      simp only [except_bind_ok] at ht hp hb
      cases hzs : zoneStart pos hs eae with
      | error e =>
          rw [hzs] at ht
          simp only [except_bind_err] at ht
          exact Except.noConfusion ht
      | ok s =>
          rw [hzs] at ht hb
          simp only [except_bind_ok] at ht hb
          injection hb with hb
          subst hb
          exact zoneLoopT_foldl pos eae
            (is_in_horizontal_surface (t2d pos) hs) rws s.1 s.2 info ps
            ht hp (zoneStart_props pos hs eae s hzs).2 hnp

/-- Witness for `zone_build_limit_is_max` at `(3000, 0, 600)` over the
`rw2000` scenario: the classification records the approach bound 650,
which is the fold of the single proposal 650 over the horizontal
stage's 600. -/
theorem zone_build_limit_is_max_witness :
    (ZoneInfo.mk Zone.approach (some 650) true true).build_limit =
      none ∨
    (ZoneInfo.mk Zone.approach (some 650) true true).build_limit =
      some (List.foldl max 600 [650]) :=
  zone_build_limit_is_max ((3000 : ℝ), (0 : ℝ), (600 : ℝ)) [rw2000] 600
    ⟨Zone.approach, some 650, true, true⟩ [650] 600 rw2000_trace_3000
    (by simp) rw2000_proposals_3000 rw2000_init_3000

/-! ## C2: every name-recording write raises `AttributeError` -/

/-- A transitional record produces a recorded zone. -/
theorem transUpd_rec (z : ℝ) (i : ZoneInfo) :
    recZone (transUpd z i).zone :=
  Or.inr (Or.inl rfl)

/-- An approach record produces a recorded zone. -/
theorem approachUpd_rec (z : ℝ) (i : ZoneInfo) :
    recZone (approachUpd z i).zone :=
  Or.inr (Or.inr rfl)

/-- A record site either keeps the state or applies its update. -/
theorem siteT_step (upd : ℝ → ZoneInfo → ZoneInfo) (o : Option ℝ)
    (s : ℝ × ZoneInfo) :
    ∃ s', siteT upd (.ok o) s = .ok s' ∧
      (s'.2 = s.2 ∨ ∃ z, s'.2 = upd z s.2) := by
  cases o with
  | none => exact ⟨s, rfl, Or.inl rfl⟩
  | some z =>
      rcases le_or_lt z s.1 with h | h
      · exact ⟨s, siteT_le upd s (not_lt.mpr h), Or.inl rfl⟩
      · exact ⟨(z, upd z s.2), siteT_gt upd s h, Or.inr ⟨z, rfl⟩⟩

/-- A record site of the classification and the same site as executed
by the source: either the proposal does not win and both leave the
state unchanged, or it wins, the classification records it, and the
source raises `AttributeError`. -/
theorem site_sim (upd : ℝ → ZoneInfo → ZoneInfo) (o : Option ℝ)
    (s : ℝ × ZoneInfo) :
    (siteT upd (.ok o) s = .ok s ∧ siteR (.ok o) s = .ok s) ∨
    (∃ z, siteT upd (.ok o) s = .ok (z, upd z s.2) ∧
      siteR (.ok o) s = .error .attributeError) := by
  cases o with
  | none => exact Or.inl ⟨rfl, rfl⟩
  | some z =>
      rcases le_or_lt z s.1 with h | h
      · exact Or.inl ⟨siteT_le upd s (not_lt.mpr h),
          siteR_le s (not_lt.mpr h)⟩
      · exact Or.inr ⟨z, siteT_gt upd s h, siteR_gt s h⟩

/-- The classification loop only ever moves the zone *into* the
recorded zones: if the final zone differs from the starting one, it is
a recorded zone. -/
theorem zoneLoopT_zone (pos : Point3) (eae : ℝ) (in_h : Prop)
    (rws : List Runway) :
    ∀ (bl : ℝ) (info info' : ZoneInfo),
    zoneLoopT pos eae in_h rws bl info = .ok info' →
    info'.zone = info.zone ∨ recZone info'.zone := by
  induction rws with
  | nil =>
      intro bl info info' h
      simp only [zoneLoopT] at h
      injection h with h
      subst h
      exact Or.inl rfl
  | cons rw rest ih =>
      intro bl info info' h
      simp only [zoneLoopT] at h
      cases hps : get_primary_surface_vertices rw with
      | error e =>
          rw [hps] at h
          simp only [except_bind_err] at h
          exact Except.noConfusion h
      | ok psv =>
          rw [hps] at h
          simp only [except_bind_ok] at h
          cases has : get_approach_surface_vertices
              rw.calc_approach_dimensions psv with
          | error e =>
              rw [has] at h
              simp only [except_bind_err] at h
              exact Except.noConfusion h
          | ok asv =>
              rw [has] at h
              simp only [except_bind_ok] at h
              cases hts : get_transitional_surface_vertices psv asv with
              | error e =>
                  rw [hts] at h
                  simp only [except_bind_err] at h
                  exact Except.noConfusion h
              | ok tsv =>
                  rw [hts] at h
                  simp only [except_bind_ok] at h
                  cases ha1 : approachCand pos eae asv.1
                      rw.calc_approach_dimensions.1 with
                  | error e =>
                      rw [ha1] at h
                      by_cases hin : in_h
                      · rw [if_pos hin] at h
                        by_cases hpoly : is_in_polygon (t2d pos)
                            (psurfFlatten psv)
                        · rw [if_pos hpoly] at h
                          injection h with h
                          subst h
                          exact Or.inr (Or.inl rfl)
                        · rw [if_neg hpoly] at h
                          simp only [pure_ok] at h
                          obtain ⟨s1, e1, hz1⟩ := siteT_step transUpd
                            (transCand pos eae tsv.1) (bl, info)
                          rw [e1] at h
                          simp only [except_bind_ok] at h
                          obtain ⟨s2, e2, hz2⟩ := siteT_step transUpd
                            (transCand pos eae tsv.2) s1
                          rw [e2] at h
                          simp only [except_bind_ok] at h
                          simp only [siteT_err, except_bind_err] at h
                          exact Except.noConfusion h
                      · rw [if_neg hin] at h
                        simp only [siteT_err, except_bind_err] at h
                        exact Except.noConfusion h
                  | ok o3 =>
                      rw [ha1] at h
                      cases ha2 : approachCand pos eae asv.2
                          rw.calc_approach_dimensions.2 with
                      | error e =>
                          rw [ha2] at h
                          by_cases hin : in_h
                          · rw [if_pos hin] at h
                            by_cases hpoly : is_in_polygon (t2d pos)
                                (psurfFlatten psv)
                            · rw [if_pos hpoly] at h
                              injection h with h
                              subst h
                              exact Or.inr (Or.inl rfl)
                            · rw [if_neg hpoly] at h
                              simp only [pure_ok] at h
                              obtain ⟨s1, e1, hz1⟩ := siteT_step transUpd
                                (transCand pos eae tsv.1) (bl, info)
                              rw [e1] at h
                              simp only [except_bind_ok] at h
                              obtain ⟨s2, e2, hz2⟩ := siteT_step transUpd
                                (transCand pos eae tsv.2) s1
                              rw [e2] at h
                              simp only [except_bind_ok] at h
                              obtain ⟨s3, e3, hz3⟩ := siteT_step
                                approachUpd o3 s2
                              rw [e3] at h
                              simp only [except_bind_ok] at h
                              simp only [siteT_err, except_bind_err] at h
                              exact Except.noConfusion h
                          · rw [if_neg hin] at h
                            obtain ⟨s3, e3, hz3⟩ := siteT_step
                              approachUpd o3 (bl, info)
                            rw [e3] at h
                            simp only [except_bind_ok] at h
                            simp only [siteT_err, except_bind_err] at h
                            exact Except.noConfusion h
                      | ok o4 =>
                          rw [ha2] at h
                          by_cases hin : in_h
                          · rw [if_pos hin] at h
                            by_cases hpoly : is_in_polygon (t2d pos)
                                (psurfFlatten psv)
                            · rw [if_pos hpoly] at h
                              injection h with h
                              subst h
                              exact Or.inr (Or.inl rfl)
                            · rw [if_neg hpoly] at h
                              simp only [pure_ok] at h
                              obtain ⟨s1, e1, hz1⟩ := siteT_step transUpd
                                (transCand pos eae tsv.1) (bl, info)
                              rw [e1] at h
                              simp only [except_bind_ok] at h
                              obtain ⟨s2, e2, hz2⟩ := siteT_step transUpd
                                (transCand pos eae tsv.2) s1
                              rw [e2] at h
                              simp only [except_bind_ok] at h
                              obtain ⟨s3, e3, hz3⟩ := siteT_step
                                approachUpd o3 s2
                              rw [e3] at h
                              simp only [except_bind_ok] at h
                              obtain ⟨s4, e4, hz4⟩ := siteT_step
                                approachUpd o4 s3
                              rw [e4] at h
                              simp only [except_bind_ok] at h
                              have hc1 : s1.2.zone = info.zone ∨
                                  recZone s1.2.zone := by
                                rcases hz1 with h1 | ⟨z1, h1⟩
                                · exact Or.inl (by rw [h1])
                                · exact Or.inr (by
                                    rw [h1]
                                    exact transUpd_rec z1 (bl, info).2)
                              have hc2 : s2.2.zone = s1.2.zone ∨
                                  recZone s2.2.zone := by
                                rcases hz2 with h2 | ⟨z2, h2⟩
                                · exact Or.inl (by rw [h2])
                                · exact Or.inr (by
                                    rw [h2]
                                    exact transUpd_rec z2 s1.2)
                              have hc3 : s3.2.zone = s2.2.zone ∨
                                  recZone s3.2.zone := by
                                rcases hz3 with h3 | ⟨z3, h3⟩
                                · exact Or.inl (by rw [h3])
                                · exact Or.inr (by
                                    rw [h3]
                                    exact approachUpd_rec z3 s2.2)
                              have hc4 : s4.2.zone = s3.2.zone ∨
                                  recZone s4.2.zone := by
                                rcases hz4 with h4 | ⟨z4, h4⟩
                                · exact Or.inl (by rw [h4])
                                · exact Or.inr (by
                                    rw [h4]
                                    exact approachUpd_rec z4 s3.2)
                              have hchain : s4.2.zone = info.zone ∨
                                  recZone s4.2.zone := by
                                rcases hc4 with h4 | h4
                                · rcases hc3 with h3 | h3
                                  · rcases hc2 with h2 | h2
                                    · rcases hc1 with h1 | h1
                                      · exact Or.inl
                                          (by rw [h4, h3, h2, h1])
                                      · exact Or.inr
                                          (by rw [h4, h3, h2]; exact h1)
                                    · exact Or.inr
                                        (by rw [h4, h3]; exact h2)
                                  · exact Or.inr (by rw [h4]; exact h3)
                                · exact Or.inr h4
                              rcases ih s4.1 s4.2 info' h with h5 | h5
                              · rcases hchain with hA | hA
                                · exact Or.inl (h5.trans hA)
                                · exact Or.inr (by rw [h5]; exact hA)
                              · exact Or.inr h5
                          · rw [if_neg hin] at h
                            obtain ⟨s3, e3, hz3⟩ := siteT_step
                              approachUpd o3 (bl, info)
                            rw [e3] at h
                            simp only [except_bind_ok] at h
                            obtain ⟨s4, e4, hz4⟩ := siteT_step
                              approachUpd o4 s3
                            rw [e4] at h
                            simp only [except_bind_ok] at h
                            have hc3 : s3.2.zone = info.zone ∨
                                recZone s3.2.zone := by
                              rcases hz3 with h3 | ⟨z3, h3⟩
                              · exact Or.inl (by rw [h3])
                              · exact Or.inr (by
                                  rw [h3]
                                  exact approachUpd_rec z3 (bl, info).2)
                            have hc4 : s4.2.zone = s3.2.zone ∨
                                recZone s4.2.zone := by
                              rcases hz4 with h4 | ⟨z4, h4⟩
                              · exact Or.inl (by rw [h4])
                              · exact Or.inr (by
                                  rw [h4]
                                  exact approachUpd_rec z4 s3.2)
                            have hchain : s4.2.zone = info.zone ∨
                                recZone s4.2.zone := by
                              rcases hc4 with h4 | h4
                              · rcases hc3 with h3 | h3
                                · exact Or.inl (by rw [h4, h3])
                                · exact Or.inr (by rw [h4]; exact h3)
                              · exact Or.inr h4
                            rcases ih s4.1 s4.2 info' h with h5 | h5
                            · rcases hchain with hA | hA
                              · exact Or.inl (h5.trans hA)
                              · exact Or.inr (by rw [h5]; exact hA)
                            · exact Or.inr h5

/-- A record site started in a recorded state ends in a recorded
state. -/
theorem siteT_keep_rec (upd : ℝ → ZoneInfo → ZoneInfo)
    (hupd : ∀ z i, recZone (upd z i).zone) (o : Option ℝ)
    (s : ℝ × ZoneInfo) :
    ∃ s', siteT upd (.ok o) s = .ok s' ∧
      (recZone s.2.zone → recZone s'.2.zone) := by
  obtain ⟨s', e, hz⟩ := siteT_step upd o s
  refine ⟨s', e, fun hr => ?_⟩
  rcases hz with h | ⟨z, h⟩
  · rw [h]
    exact hr
  · rw [h]
    exact hupd z s.2

/-- The classification loop keeps a recorded zone recorded. -/
theorem zoneLoopT_keeps_rec (pos : Point3) (eae : ℝ) (in_h : Prop)
    (rws : List Runway) (bl : ℝ) (info info' : ZoneInfo)
    (hr : recZone info.zone)
    (h : zoneLoopT pos eae in_h rws bl info = .ok info') :
    recZone info'.zone := by
  rcases zoneLoopT_zone pos eae in_h rws bl info info' h with h5 | h5
  · rw [h5]
    exact hr
  · exact h5

/-- Simulation of the source loop by the classification loop: starting
from an unrecorded state, either no surface record wins and the source
returns the starting info unchanged, or some record wins — the
classification then ends in a recorded zone and the source raises
`AttributeError` at the first winning record. -/
theorem zoneLoop_sim (pos : Point3) (eae : ℝ) (in_h : Prop)
    (rws : List Runway) :
    ∀ (bl : ℝ) (info info' : ZoneInfo),
    zoneLoopT pos eae in_h rws bl info = .ok info' →
    (info' = info ∧ zoneLoopR pos eae in_h rws bl info = .ok info) ∨
    (recZone info'.zone ∧
      zoneLoopR pos eae in_h rws bl info = .error .attributeError) := by
  induction rws with
  | nil =>
      intro bl info info' h
      simp only [zoneLoopT] at h
      injection h with h
      subst h
      exact Or.inl ⟨rfl, rfl⟩
  | cons rw rest ih =>
      intro bl info info' h
      simp only [zoneLoopT] at h
      simp only [zoneLoopR]
      cases hps : get_primary_surface_vertices rw with
      | error e =>
          try rw [hps] at h
          simp only [except_bind_err] at h
          exact Except.noConfusion h
      | ok psv =>
          try rw [hps] at h
          try rw [hps]
          simp only [except_bind_ok] at h ⊢
          cases has : get_approach_surface_vertices
              rw.calc_approach_dimensions psv with
          | error e =>
              try rw [has] at h
              simp only [except_bind_err] at h
              exact Except.noConfusion h
          | ok asv =>
              try rw [has] at h
              try rw [has]
              simp only [except_bind_ok] at h ⊢
              cases hts : get_transitional_surface_vertices psv asv with
              | error e =>
                  try rw [hts] at h
                  simp only [except_bind_err] at h
                  exact Except.noConfusion h
              | ok tsv =>
                  try rw [hts] at h
                  try rw [hts]
                  simp only [except_bind_ok] at h ⊢
                  by_cases hin : in_h
                  · rw [if_pos hin] at h ⊢
                    by_cases hpoly : is_in_polygon (t2d pos)
                        (psurfFlatten psv)
                    · rw [if_pos hpoly] at h ⊢
                      injection h with h
                      subst h
                      exact Or.inr ⟨Or.inl rfl, rfl⟩
                    · rw [if_neg hpoly] at h ⊢
                      simp only [pure_ok] at h ⊢
                      rcases site_sim transUpd
                          (transCand pos eae tsv.1) (bl, info) with
                        ⟨t1, r1⟩ | ⟨z1, t1, r1⟩
                      · rw [t1] at h
                        rw [r1]
                        simp only [except_bind_ok] at h ⊢
                        rcases site_sim transUpd
                            (transCand pos eae tsv.2) (bl, info) with
                          ⟨t2, r2⟩ | ⟨z2, t2, r2⟩
                        · rw [t2] at h
                          rw [r2]
                          simp only [except_bind_ok] at h ⊢
                          cases ha1 : approachCand pos eae asv.1
                              rw.calc_approach_dimensions.1 with
                          | error e =>
                              try rw [ha1] at h
                              simp only [siteT_err, except_bind_err]
                                at h
                              exact Except.noConfusion h
                          | ok o3 =>
                              try rw [ha1] at h
                              try rw [ha1]
                              rcases site_sim approachUpd o3 (bl, info)
                                  with ⟨t3, r3⟩ | ⟨z3, t3, r3⟩
                              · rw [t3] at h
                                rw [r3]
                                simp only [except_bind_ok] at h ⊢
                                cases ha2 : approachCand pos eae asv.2
                                    rw.calc_approach_dimensions.2 with
                                | error e =>
                                    try rw [ha2] at h
                                    simp only [siteT_err,
                                      except_bind_err] at h
                                    exact Except.noConfusion h
                                | ok o4 =>
                                    try rw [ha2] at h
                                    try rw [ha2]
                                    rcases site_sim approachUpd o4
                                        (bl, info) with
                                      ⟨t4, r4⟩ | ⟨z4, t4, r4⟩
                                    · rw [t4] at h
                                      rw [r4]
                                      simp only [except_bind_ok]
                                        at h ⊢
                                      exact ih bl info info' h
                                    · rw [t4] at h
                                      rw [r4]
                                      simp only [except_bind_ok] at h
                                      simp only [except_bind_err]
                                      exact Or.inr
                                        ⟨zoneLoopT_keeps_rec pos eae
                                          in_h rest z4
                                          (approachUpd z4 (bl, info).2)
                                          info'
                                          (approachUpd_rec z4
                                            (bl, info).2) h, trivial⟩
                              · rw [t3] at h
                                rw [r3]
                                simp only [except_bind_ok] at h
                                simp only [except_bind_err]
                                cases ha2 : approachCand pos eae asv.2
                                    rw.calc_approach_dimensions.2 with
                                | error e =>
                                    try rw [ha2] at h
                                    simp only [siteT_err,
                                      except_bind_err] at h
                                    exact Except.noConfusion h
                                | ok o4 =>
                                    try rw [ha2] at h
                                    obtain ⟨s4, e4, k4⟩ :=
                                      siteT_keep_rec approachUpd
                                        approachUpd_rec o4 (z3,
                                          approachUpd z3 (bl, info).2)
                                    rw [e4] at h
                                    simp only [except_bind_ok] at h
                                    exact Or.inr
                                      ⟨zoneLoopT_keeps_rec pos eae in_h
                                        rest s4.1 s4.2 info'
                                        (k4 (approachUpd_rec z3
                                          (bl, info).2)) h, trivial⟩
                        · rw [t2] at h
                          rw [r2]
                          simp only [except_bind_ok] at h
                          simp only [except_bind_err]
                          cases ha1 : approachCand pos eae asv.1
                              rw.calc_approach_dimensions.1 with
                          | error e =>
                              try rw [ha1] at h
                              simp only [siteT_err, except_bind_err]
                                at h
                              exact Except.noConfusion h
                          | ok o3 =>
                              try rw [ha1] at h
                              obtain ⟨s3, e3, k3⟩ := siteT_keep_rec
                                approachUpd approachUpd_rec o3 (z2,
                                  transUpd z2 (bl, info).2)
                              rw [e3] at h
                              simp only [except_bind_ok] at h
                              cases ha2 : approachCand pos eae asv.2
                                  rw.calc_approach_dimensions.2 with
                              | error e =>
                                  try rw [ha2] at h
                                  simp only [siteT_err,
                                    except_bind_err] at h
                                  exact Except.noConfusion h
                              | ok o4 =>
                                  try rw [ha2] at h
                                  obtain ⟨s4, e4, k4⟩ :=
                                    siteT_keep_rec approachUpd
                                      approachUpd_rec o4 s3
                                  rw [e4] at h
                                  simp only [except_bind_ok] at h
                                  exact Or.inr
                                    ⟨zoneLoopT_keeps_rec pos eae in_h
                                      rest s4.1 s4.2 info'
                                      (k4 (k3 (transUpd_rec z2
                                        (bl, info).2))) h, trivial⟩
                      · rw [t1] at h
                        rw [r1]
                        simp only [except_bind_ok] at h
                        simp only [except_bind_err]
                        obtain ⟨s2, e2, k2⟩ := siteT_keep_rec transUpd
                          transUpd_rec (transCand pos eae tsv.2) (z1,
                            transUpd z1 (bl, info).2)
                        rw [e2] at h
                        simp only [except_bind_ok] at h
                        cases ha1 : approachCand pos eae asv.1
                            rw.calc_approach_dimensions.1 with
                        | error e =>
                            try rw [ha1] at h
                            simp only [siteT_err, except_bind_err] at h
                            exact Except.noConfusion h
                        | ok o3 =>
                            try rw [ha1] at h
                            obtain ⟨s3, e3, k3⟩ := siteT_keep_rec
                              approachUpd approachUpd_rec o3 s2
                            rw [e3] at h
                            simp only [except_bind_ok] at h
                            cases ha2 : approachCand pos eae asv.2
                                rw.calc_approach_dimensions.2 with
                            | error e =>
                                try rw [ha2] at h
                                simp only [siteT_err, except_bind_err]
                                  at h
                                exact Except.noConfusion h
                            | ok o4 =>
                                try rw [ha2] at h
                                obtain ⟨s4, e4, k4⟩ := siteT_keep_rec
                                  approachUpd approachUpd_rec o4 s3
                                rw [e4] at h
                                simp only [except_bind_ok] at h
                                exact Or.inr
                                  ⟨zoneLoopT_keeps_rec pos eae in_h
                                    rest s4.1 s4.2 info'
                                    (k4 (k3 (k2 (transUpd_rec z1
                                      (bl, info).2)))) h, trivial⟩
                  · rw [if_neg hin] at h ⊢
                    cases ha1 : approachCand pos eae asv.1
                        rw.calc_approach_dimensions.1 with
                    | error e =>
                        try rw [ha1] at h
                        simp only [siteT_err, except_bind_err] at h
                        exact Except.noConfusion h
                    | ok o3 =>
                        try rw [ha1] at h
                        try rw [ha1]
                        rcases site_sim approachUpd o3 (bl, info) with
                          ⟨t3, r3⟩ | ⟨z3, t3, r3⟩
                        · rw [t3] at h
                          rw [r3]
                          simp only [except_bind_ok] at h ⊢
                          cases ha2 : approachCand pos eae asv.2
                              rw.calc_approach_dimensions.2 with
                          | error e =>
                              try rw [ha2] at h
                              simp only [siteT_err, except_bind_err]
                                at h
                              exact Except.noConfusion h
                          | ok o4 =>
                              try rw [ha2] at h
                              try rw [ha2]
                              rcases site_sim approachUpd o4 (bl, info)
                                  with ⟨t4, r4⟩ | ⟨z4, t4, r4⟩
                              · rw [t4] at h
                                rw [r4]
                                simp only [except_bind_ok] at h ⊢
                                exact ih bl info info' h
                              · rw [t4] at h
                                rw [r4]
                                simp only [except_bind_ok] at h
                                simp only [except_bind_err]
                                exact Or.inr
                                  ⟨zoneLoopT_keeps_rec pos eae in_h
                                    rest z4
                                    (approachUpd z4 (bl, info).2) info'
                                    (approachUpd_rec z4 (bl, info).2)
                                    h, trivial⟩
                        · rw [t3] at h
                          rw [r3]
                          simp only [except_bind_ok] at h
                          simp only [except_bind_err]
                          cases ha2 : approachCand pos eae asv.2
                              rw.calc_approach_dimensions.2 with
                          | error e =>
                              try rw [ha2] at h
                              simp only [siteT_err, except_bind_err]
                                at h
                              exact Except.noConfusion h
                          | ok o4 =>
                              try rw [ha2] at h
                              obtain ⟨s4, e4, k4⟩ := siteT_keep_rec
                                approachUpd approachUpd_rec o4 (z3,
                                  approachUpd z3 (bl, info).2)
                              rw [e4] at h
                              simp only [except_bind_ok] at h
                              exact Or.inr
                                ⟨zoneLoopT_keeps_rec pos eae in_h rest
                                  s4.1 s4.2 info'
                                  (k4 (approachUpd_rec z3
                                    (bl, info).2)) h, trivial⟩

/-- C2: whenever the classification of a query ends in a zone that
records a runway or end identity (Primary, Transitional, Approach),
`get_zone_information` raises `AttributeError` — the `Runway` and
`RunwayEnd` constructors never define the `name` attributes the
recording reads — while queries classified N/A, Horizontal, or Conical
return normally with that very classification. -/
theorem name_recording_behaviour (pos : Point3) (rws : List Runway)
    (eae : ℝ) (info : ZoneInfo)
    (h : get_zone_classification pos rws eae = .ok info) :
    ((info.zone = Zone.primary ∨ info.zone = Zone.transitional ∨
        info.zone = Zone.approach) →
      get_zone_information pos rws eae = .error .attributeError) ∧
    ((info.zone = Zone.na ∨ info.zone = Zone.horizontal ∨
        info.zone = Zone.conical) →
      get_zone_information pos rws eae = .ok info) := by
  unfold get_zone_classification at h
  unfold get_zone_information
  cases hhs : get_horizontal_surface_edges rws with
  | error e =>
      try rw [hhs] at h
      simp only [except_bind_err] at h
      exact Except.noConfusion h
  | ok hs =>
      try rw [hhs] at h
      try rw [hhs]
      simp only [except_bind_ok] at h ⊢
      cases hzs : zoneStart pos hs eae with
      | error e =>
          try rw [hzs] at h
          simp only [except_bind_err] at h
          exact Except.noConfusion h
      | ok s =>
          try rw [hzs] at h
          try rw [hzs]
          simp only [except_bind_ok] at h ⊢
          have hstart := zoneStart_props pos hs eae s hzs
          have hnr : ¬ recZone s.2.zone := by
            rcases hstart.1 with h1 | h1 | h1 <;>
              rw [h1] <;>
              rintro (h2 | h2 | h2) <;> exact Zone.noConfusion h2
          rcases zoneLoop_sim pos eae
              (is_in_horizontal_surface (t2d pos) hs) rws s.1 s.2 info
              h with ⟨heq, hR⟩ | ⟨hrec, hR⟩
          · constructor
            · intro hr
              exact absurd (show recZone s.2.zone from heq ▸ hr) hnr
            · intro _
              rw [heq]
              exact hR
          · constructor
            · intro _
              exact hR
            · intro hn
              rcases hn with h1 | h1 | h1 <;>
                rw [h1] at hrec <;>
                rcases hrec with h2 | h2 | h2 <;>
                exact Zone.noConfusion h2

/-- Witness for `name_recording_behaviour` at `(3000, 0, 600)` over
the `rw2000` scenario, whose classification is the Approach zone. -/
theorem name_recording_behaviour_witness :
    get_zone_information ((3000 : ℝ), (0 : ℝ), (600 : ℝ)) [rw2000]
      600 = .error .attributeError :=
  (name_recording_behaviour ((3000 : ℝ), (0 : ℝ), (600 : ℝ)) [rw2000]
    600 ⟨Zone.approach, some 650, true, true⟩ rw2000_trace_3000).1
    (Or.inr (Or.inr rfl))
